import Mathlib

/-!
# Oops! I missed — a shallow embedding of `OOP.cpp`

The development embeds the game's classes (`Bird`, `Movement`, `SinMovement`,
`PistolSprite`), the frame loop of `GameWindow`, the event loops of the two menus and
`main` as Lean functions, and proves properties of them.

Conventions of the embedding.

* Time. An `sf::Clock` is the instant of its last restart, in microseconds (the unit of
  `sf::Time`); the `float` thresholds of the source are written in microseconds
  (`1.2f` seconds is `1200000`). Every clock read of one frame happens at one instant `now`.
* Geometry. `float` coordinates are exact rationals.
* Integers. `int` is `Int` (no overflow), `unsigned` is `Nat`; a conversion between the two
  wraps modulo `2 ^ 32`. A division or remainder by zero is undefined in the source: the
  animation updates, whose divisors depend on the sprite sheet, return `none` there.
* Library. `rand()` is a parameter (`Env.gen`: the sequence of a seed), so is `sin`
  (`Env.sinF`). `sf::Sprite::getGlobalBounds` and `sf::FloatRect::contains` follow SFML 2.
* Rendering, texts and music are left out: they do not feed back into the state.
-/

namespace OopsIMissed

/-! ## Machine integers -/

/-- Conversion `int → unsigned` (32 bits). -/
def toUnsigned (i : Int) : Nat := (i % 4294967296).toNat

/-- Conversion `unsigned → int` (32 bits, two's complement). -/
def toSigned (n : Nat) : Int :=
  if n % 4294967296 < 2147483648 then ((n % 4294967296 : Nat) : Int)
  else ((n % 4294967296 : Nat) : Int) - 4294967296

/-! ## SFML values -/

/-- An `sf::Clock`: the instant (µs) of its construction or last `restart()`. -/
structure Clock where
  start : Int
deriving DecidableEq, Repr

/-- Microseconds elapsed on the clock at instant `now` (`getElapsedTime()`). -/
def Clock.getElapsedTime (c : Clock) (now : Int) : Int := now - c.start

/-- The clock after `restart()` at instant `now`. -/
def Clock.restart (_c : Clock) (now : Int) : Clock := ⟨now⟩

/-- An `sf::FloatRect`. -/
structure FloatRect where
  left : ℚ
  top : ℚ
  width : ℚ
  height : ℚ
deriving DecidableEq

/-- SFML 2 `Rect::contains`: the left and top edges belong to the rectangle, the right and
bottom edges do not. -/
def FloatRect.contains (r : FloatRect) (x y : ℚ) : Bool :=
  decide (min r.left (r.left + r.width) ≤ x) && decide (x < max r.left (r.left + r.width)) &&
  decide (min r.top (r.top + r.height) ≤ y) && decide (y < max r.top (r.top + r.height))

/-- An `sf::IntRect`. -/
structure IntRect where
  left : Int
  top : Int
  width : Int
  height : Int
deriving DecidableEq, Repr

/-- The part of an `sf::Sprite` the game uses: position, scale, origin and texture
rectangle. No bird is ever rotated, and only birds have their bounds taken. -/
structure Sprite where
  posX : ℚ
  posY : ℚ
  scaleX : ℚ
  scaleY : ℚ
  originX : ℚ
  originY : ℚ
  textureRect : IntRect
deriving DecidableEq

/-- The method `setPosition(x, y)`. -/
def Sprite.setPosition (s : Sprite) (x y : ℚ) : Sprite := { s with posX := x, posY := y }

/-- The method `setScale(x, y)`. -/
def Sprite.setScale (s : Sprite) (x y : ℚ) : Sprite := { s with scaleX := x, scaleY := y }

/-- The method `move(dx, dy)`. -/
def Sprite.move (s : Sprite) (dx dy : ℚ) : Sprite :=
  { s with posX := s.posX + dx, posY := s.posY + dy }

/-- The method `setTextureRect`. -/
def Sprite.setTextureRect (s : Sprite) (r : IntRect) : Sprite := { s with textureRect := r }

/-- SFML 2 `getGlobalBounds()` of an unrotated sprite: the local rectangle
`(0, 0, |rect.width|, |rect.height|)` mapped through origin, scale and position, then
the bounding rectangle of the image. -/
def Sprite.getGlobalBounds (s : Sprite) : FloatRect :=
  let x0 := s.posX + s.scaleX * (0 - s.originX)
  let x1 := s.posX + s.scaleX * (|(s.textureRect.width : ℚ)| - s.originX)
  let y0 := s.posY + s.scaleY * (0 - s.originY)
  let y1 := s.posY + s.scaleY * (|(s.textureRect.height : ℚ)| - s.originY)
  { left := min x0 x1, top := min y0 y1, width := max x0 x1 - min x0 x1,
    height := max y0 y1 - min y0 y1 }

/-! ## The C library: `srand` and `rand`, `sin` -/

/-- The library functions the source calls and this file does not define: `gen seed k` is
the `k`-th value `rand()` returns after `srand(seed)`; `sinF` is `sin`. -/
structure Env where
  gen : Nat → Nat → Nat
  sinF : ℚ → ℚ

/-- State of the C random generator: the last seed and the number of draws since. -/
structure Rng where
  seed : Nat
  idx : Nat
deriving DecidableEq, Repr

/-- The call `srand(seed)`. -/
def Rng.srand (_r : Rng) (seed : Nat) : Rng := ⟨seed, 0⟩

/-- The call `rand()`: the value drawn and the generator afterwards. -/
def Rng.rand (env : Env) (r : Rng) : Nat × Rng := (env.gen r.seed r.idx, ⟨r.seed, r.idx + 1⟩)

/-! ## `class Bird` -/

/-- The data members of `Bird` (the texture itself is reduced to its size). -/
structure Bird where
  birdSprite : Sprite
  textureSizeX : Nat
  textureSizeY : Nat
  frameWidth : Int
  frameHeight : Int
  currentFrame : Int
  totalFrames : Int
  frameDuration : Int
  animationClock : Clock
deriving DecidableEq

/-- The constructor `Bird(filePath, columns, rows, duration)`, run at instant `now` on a
texture of size `texX × texY` (`0 × 0` when the file cannot be loaded). `none`: division by
zero. -/
def Bird.new (texX texY : Nat) (columns rows : Int) (duration : Int) (now : Int) :
    Option Bird :=
  if toUnsigned columns = 0 ∨ toUnsigned rows = 0 then none
  else
    let frameWidth := toSigned (texX / toUnsigned columns)
    let frameHeight := toSigned (texY / toUnsigned rows)
    some
      { birdSprite :=
          { posX := 0, posY := 0, scaleX := 1 / 2, scaleY := 1 / 2, originX := 0, originY := 0,
            textureRect := ⟨0, 0, frameWidth, frameHeight⟩ }
        textureSizeX := texX
        textureSizeY := texY
        frameWidth := frameWidth
        frameHeight := frameHeight
        currentFrame := 0
        totalFrames := columns * rows - 1
        frameDuration := duration
        animationClock := ⟨now⟩ }

/-- The method `Bird::updateAnimation()`, called at instant `now`. `none`: a remainder or
division by zero (`totalFrames`, `frameWidth` or `textureSize.x / frameWidth` is zero). -/
def Bird.updateAnimation (b : Bird) (now : Int) : Option Bird :=
  if b.animationClock.getElapsedTime now > b.frameDuration then
    if b.totalFrames = 0 then none
    else if toUnsigned b.frameWidth = 0 then none
    else if b.textureSizeX / toUnsigned b.frameWidth = 0 then none
    else
      let currentFrame := Int.tmod (b.currentFrame + 1) b.totalFrames
      let frameX := toSigned
        (toUnsigned currentFrame % (b.textureSizeX / toUnsigned b.frameWidth)
          * toUnsigned b.frameWidth)
      let frameY := toSigned
        (toUnsigned currentFrame / (b.textureSizeX / toUnsigned b.frameWidth)
          * toUnsigned b.frameHeight)
      some
        { b with
          currentFrame := currentFrame
          birdSprite := b.birdSprite.setTextureRect ⟨frameX, frameY, b.frameWidth, b.frameHeight⟩
          animationClock := b.animationClock.restart now }
  else some b

/-- The data members of `Movement`. -/
structure Movement where
  speed : ℚ
  directionX : ℚ
  directionY : ℚ
  goingRight : Bool
deriving DecidableEq

/-- The constructor `Movement(birdSpeed)`; it also reseeds the generator with `time(0)`.
`direction` is left uninitialised by the source and is written by `randomizeStart` before
it is read. -/
def Movement.new (birdSpeed : ℚ) (time0 : Nat) (rng : Rng) : Movement × Rng :=
  ({ speed := birdSpeed, directionX := 0, directionY := 0, goingRight := true },
   rng.srand time0)

/-- The method `Movement::randomizeStart(sprite, windowSize)`. The divisor
`windowSize.y / 3` is zero only for a window less than 3 pixels high; the remainder is then
undefined in the source, and the draw itself here. -/
def Movement.randomizeStart (env : Env) (m : Movement) (rng : Rng) (sprite : Sprite)
    (windowSize : Nat × Nat) : Movement × Sprite × Rng :=
  let d1 := rng.rand env
  let startY : ℚ := ((d1.1 % (windowSize.2 / 3) : Nat) : ℚ)
  let d2 := d1.2.rand env
  let goingRight : Bool := decide (d2.1 % 2 ≠ 0)
  if goingRight then
    ({ m with goingRight := goingRight, directionX := 1, directionY := 0 },
     (sprite.setPosition (-sprite.getGlobalBounds.width) startY).setScale (1 / 2) (1 / 2),
     d2.2)
  else
    ({ m with goingRight := goingRight, directionX := -1, directionY := 0 },
     (sprite.setPosition (((windowSize.1 + 50 : Nat) : ℚ)) startY).setScale (-(1 / 2)) (1 / 2),
     d2.2)

/-- The method `Movement::update(sprite, windowSize)`. -/
def Movement.update (env : Env) (m : Movement) (rng : Rng) (sprite : Sprite)
    (windowSize : Nat × Nat) : Movement × Sprite × Rng :=
  let sprite := sprite.move (m.directionX * m.speed) (m.directionY * m.speed)
  if (m.goingRight && decide (sprite.posX > (windowSize.1 : ℚ))) ||
      (!m.goingRight && decide (sprite.posX < -sprite.getGlobalBounds.width)) then
    m.randomizeStart env rng sprite windowSize
  else (m, sprite, rng)

/-! ## `class SinMovement` -/

/-- The data members of `SinMovement`. -/
structure SinMovement where
  speed : ℚ
  amplitude : ℚ
  frequency : ℚ
  directionX : ℚ
  directionY : ℚ
  goingRight : Bool
  elapsedTime : ℚ
  issin : Bool
deriving DecidableEq

/-- The constructor `SinMovement(birdSpeed, waveAmplitude, waveFrequency)`; `direction` and
`goingRight` are left uninitialised by the source and written by `randomizeStart`. -/
def SinMovement.new (birdSpeed waveAmplitude waveFrequency : ℚ) (time0 : Nat) (rng : Rng) :
    SinMovement × Rng :=
  ({ speed := birdSpeed, amplitude := waveAmplitude, frequency := waveFrequency,
     directionX := 0, directionY := 0, goingRight := true, elapsedTime := 0, issin := true },
   rng.srand time0)

/-- The method `SinMovement::randomizeStart(sprite, windowSize)`. The divisor
`windowSize.y / 4` is zero only for a window less than 4 pixels high; the remainder is then
undefined in the source, and the draw itself here. -/
def SinMovement.randomizeStart (env : Env) (m : SinMovement) (rng : Rng) (sprite : Sprite)
    (windowSize : Nat × Nat) : SinMovement × Sprite × Rng :=
  let d1 := rng.rand env
  let startY : ℚ := ((d1.1 % (windowSize.2 / 4) : Nat) : ℚ)
  let d2 := d1.2.rand env
  let goingRight : Bool := decide (d2.1 % 2 ≠ 0)
  if goingRight then
    ({ m with goingRight := goingRight, directionX := 1, directionY := 0, elapsedTime := 0 },
     (sprite.setPosition (-sprite.getGlobalBounds.width) startY).setScale (1 / 2) (1 / 2),
     d2.2)
  else
    ({ m with goingRight := goingRight, directionX := -1, directionY := 0, elapsedTime := 0 },
     (sprite.setPosition (((windowSize.1 + 50 : Nat) : ℚ)) startY).setScale (-(1 / 2)) (1 / 2),
     d2.2)

/-- The method `SinMovement::toggleMovementMode()`. -/
def SinMovement.toggleMovementMode (m : SinMovement) : SinMovement :=
  { m with issin := !m.issin }

/-- The method `SinMovement::update(sprite, windowSize, deltaTime)`, `deltaTime` in
seconds. -/
def SinMovement.update (env : Env) (m : SinMovement) (rng : Rng) (sprite : Sprite)
    (windowSize : Nat × Nat) (deltaTime : ℚ) : SinMovement × Sprite × Rng :=
  let ms : SinMovement × Sprite :=
    if m.issin then
      let elapsedTime := m.elapsedTime + deltaTime
      let posX := sprite.posX + m.directionX * m.speed * deltaTime
      let posY := sprite.posY + m.amplitude * env.sinF (m.frequency * elapsedTime)
      ({ m with elapsedTime := elapsedTime }, sprite.setPosition posX posY)
    else (m, sprite.move (m.directionX * m.speed * deltaTime) 0)
  if (ms.1.goingRight && decide (ms.2.posX > (windowSize.1 : ℚ))) ||
      (!ms.1.goingRight && decide (ms.2.posX < -ms.2.getGlobalBounds.width)) then
    ms.1.randomizeStart env rng ms.2 windowSize
  else (ms.1, ms.2, rng)

/-! ## `class PistolSprite` -/

/-- The data members of `PistolSprite`; a sound is the number of `play()` calls issued
on it. -/
structure PistolSprite where
  pistolSprite : Sprite
  textureSizeX : Nat
  textureSizeY : Nat
  frameWidth : Int
  frameHeight : Int
  currentFrame : Int
  totalFrames : Int
  frameDuration : Int
  animationClock : Clock
  isShooting : Bool
  cooldownClock : Clock
  shootCooldown : Int
  fireSound : Nat
  reloadSound : Nat
deriving DecidableEq

/-- The constructor `PistolSprite(filePath, columns, rows, duration)` at instant `now`;
`shootCooldown = 0.74f` seconds. `none`: division by zero. -/
def PistolSprite.new (texX texY : Nat) (columns rows : Int) (duration : Int) (now : Int) :
    Option PistolSprite :=
  if toUnsigned columns = 0 ∨ toUnsigned rows = 0 then none
  else
    let frameWidth := toSigned (texX / toUnsigned columns)
    let frameHeight := toSigned (texY / toUnsigned rows + 4294967296 - 10)
    some
      { pistolSprite :=
          { posX := 0, posY := 0, scaleX := 4 / 5, scaleY := 4 / 5, originX := 400,
            originY := 380, textureRect := ⟨0, 0, frameWidth, frameHeight⟩ }
        textureSizeX := texX
        textureSizeY := texY
        frameWidth := frameWidth
        frameHeight := frameHeight
        currentFrame := 0
        totalFrames := columns * rows
        frameDuration := duration
        animationClock := ⟨now⟩
        isShooting := false
        cooldownClock := ⟨now⟩
        shootCooldown := 740000
        fireSound := 0
        reloadSound := 0 }

/-- The method `PistolSprite::startShooting()`, called at instant `now`. -/
def PistolSprite.startShooting (p : PistolSprite) (now : Int) : PistolSprite :=
  if p.cooldownClock.getElapsedTime now ≥ p.shootCooldown then
    { p with
      isShooting := true
      currentFrame := 0
      animationClock := p.animationClock.restart now
      cooldownClock := p.cooldownClock.restart now
      fireSound := p.fireSound + 1
      reloadSound := p.reloadSound + 1 }
  else p

/-- The method `PistolSprite::updateAnimation()`, called at instant `now`. `none`: a
division by zero in the texture rectangle. -/
def PistolSprite.updateAnimation (p : PistolSprite) (now : Int) : Option PistolSprite :=
  if p.isShooting then
    if p.animationClock.getElapsedTime now > p.frameDuration then
      if p.currentFrame + 1 ≥ p.totalFrames then
        some { p with isShooting := false, currentFrame := 0,
                      animationClock := p.animationClock.restart now }
      else if toUnsigned p.frameWidth = 0 then none
      else if p.textureSizeX / toUnsigned p.frameWidth = 0 then none
      else
        let frameX := toSigned
          (toUnsigned (p.currentFrame + 1) % (p.textureSizeX / toUnsigned p.frameWidth)
            * toUnsigned p.frameWidth)
        let frameY := toSigned
          (toUnsigned (p.currentFrame + 1) / (p.textureSizeX / toUnsigned p.frameWidth)
            * toUnsigned p.frameHeight)
        some
          { p with
            currentFrame := p.currentFrame + 1
            pistolSprite :=
              p.pistolSprite.setTextureRect ⟨frameX, frameY, p.frameWidth, p.frameHeight⟩
            animationClock := p.animationClock.restart now }
    else some p
  else some p

/-- The method `PistolSprite::setPosition(x, y)`. -/
def PistolSprite.setPosition (p : PistolSprite) (x y : ℚ) : PistolSprite :=
  { p with pistolSprite := p.pistolSprite.setPosition x y }

/-- The four targets. -/
inductive Tier where
  | white
  | blue
  | turbo
  | monster
deriving DecidableEq, Repr

/-- The places where the body of `GameWindow` itself calls `randomizeStart`: after a
credited hit, and when a tier is unlocked. -/
inductive Respawn where
  | hit (t : Tier)
  | unlock (t : Tier)
deriving DecidableEq, Repr

/-- The variables of `GameWindow`: its reference parameters, its locals, the window, the
score file and the random generator. `respawnLog` is an observation, not a variable of the
source: the respawn calls issued by the body so far, oldest first. The locals `clock` and
`shotMissed`, never read, are left out. -/
structure GameState where
  windowSize : Nat × Nat
  windowOpen : Bool
  scoreFile : Int
  rng : Rng
  white : Bird
  blue : Bird
  turbo : Bird
  monster : Bird
  score : Int
  highScore : Int
  streak : Int
  whiteCooldownClock : Clock
  blueCooldownClock : Clock
  turboCooldownClock : Clock
  monsterCooldownClock : Clock
  isCollisionEnabled : Bool
  clickCooldownClock : Clock
  turboBirdActive : Bool
  monsterActive : Bool
  shotgun : PistolSprite
  cursorConstrained : Bool
  whiteMovement : Movement
  blueMovement : Movement
  turboMovement : SinMovement
  monsterMovement : SinMovement
  deltaClock : Clock
  modeSwitch : Clock
  missedShots : Int
  respawnLog : List Respawn
deriving DecidableEq

/-- The local `collisionCooldown = 1.2f` seconds. -/
def collisionCooldown : Int := 1200000

/-- The local `clickCooldown = 0.75f` seconds. -/
def clickCooldown : Int := 750000

/-- The events the loop reacts to; `other` is any other event. -/
inductive Event where
  | closed
  | escapePressed
  | tabPressed
  | leftClick
  | other
deriving DecidableEq, Repr

/-- What one frame reads from outside: the pending events, the instant, and the pointer
position `Mouse::getPosition(window)`. -/
structure FrameInput where
  events : List Event
  now : Int
  mouse : Int × Int
deriving DecidableEq, Repr

/-- The body of the event loop for one event (lines 470-503). -/
def handleEvent (now : Int) (s : GameState) : Event → GameState
  | .closed => { s with windowOpen := false }
  | .escapePressed => { s with windowOpen := false }
  | .tabPressed => { s with cursorConstrained := !s.cursorConstrained }
  | .leftClick =>
    if s.clickCooldownClock.getElapsedTime now ≥ clickCooldown then
      { s with
        isCollisionEnabled := true
        shotgun := s.shotgun.startShooting now
        clickCooldownClock := s.clickCooldownClock.restart now }
    else s
  | .other => s

/-- The loop `while (window.pollEvent(event))`: a closed window yields no further event. -/
def pollEvents (now : Int) : GameState → List Event → GameState
  | s, [] => s
  | s, e :: es => if s.windowOpen then pollEvents now (handleEvent now s e) es else s

/-- The function `constrainCursor`: the pointer position after it. `y > (int)h / 1.5` is
`3 y > 2 h`, and the assignment truncates `h / 1.5`. -/
def constrainCursor (windowSize : Nat × Nat) (mousePos : Int × Int) : Int × Int :=
  let x := if mousePos.1 < 0 then 0 else mousePos.1
  let x := if x > (windowSize.1 : Int) - 1 then toSigned (windowSize.1 + 4294967296 - 1) else x
  let y := if mousePos.2 < 0 then 0 else mousePos.2
  let y := if 3 * y > 2 * (windowSize.2 : Int) then (2 * (windowSize.2 : Int)) / 3 else y
  (x, y)

/-- The white bird's collision block (lines 522-531); the flag is the local `hit`. -/
def whiteCollision (env : Env) (mousePos : Int × Int) (now : Int) (p : GameState × Bool) :
    GameState × Bool :=
  if p.1.white.birdSprite.getGlobalBounds.contains mousePos.1 mousePos.2 &&
      decide (p.1.whiteCooldownClock.getElapsedTime now > collisionCooldown) then
    let r := p.1.whiteMovement.randomizeStart env p.1.rng p.1.white.birdSprite p.1.windowSize
    ({ p.1 with
       score := p.1.score + 1
       streak := p.1.streak + 1
       whiteMovement := r.1
       white := { p.1.white with birdSprite := r.2.1 }
       rng := r.2.2
       respawnLog := p.1.respawnLog ++ [.hit .white]
       whiteCooldownClock := p.1.whiteCooldownClock.restart now
       isCollisionEnabled := false }, true)
  else p

/-- The blue bird's collision block (lines 533-542). -/
def blueCollision (env : Env) (mousePos : Int × Int) (now : Int) (p : GameState × Bool) :
    GameState × Bool :=
  if p.1.blue.birdSprite.getGlobalBounds.contains mousePos.1 mousePos.2 &&
      decide (p.1.blueCooldownClock.getElapsedTime now > collisionCooldown) then
    let r := p.1.blueMovement.randomizeStart env p.1.rng p.1.blue.birdSprite p.1.windowSize
    ({ p.1 with
       score := p.1.score + 2
       streak := p.1.streak + 1
       blueMovement := r.1
       blue := { p.1.blue with birdSprite := r.2.1 }
       rng := r.2.2
       respawnLog := p.1.respawnLog ++ [.hit .blue]
       blueCooldownClock := p.1.blueCooldownClock.restart now
       isCollisionEnabled := false }, true)
  else p

/-- The turbo bird's collision block (lines 544-553). -/
def turboCollision (env : Env) (mousePos : Int × Int) (now : Int) (p : GameState × Bool) :
    GameState × Bool :=
  if p.1.turbo.birdSprite.getGlobalBounds.contains mousePos.1 mousePos.2 &&
      decide (p.1.turboCooldownClock.getElapsedTime now > collisionCooldown) then
    let r := p.1.turboMovement.randomizeStart env p.1.rng p.1.turbo.birdSprite p.1.windowSize
    ({ p.1 with
       score := p.1.score + 4
       streak := p.1.streak + 1
       turboMovement := r.1
       turbo := { p.1.turbo with birdSprite := r.2.1 }
       rng := r.2.2
       respawnLog := p.1.respawnLog ++ [.hit .turbo]
       turboCooldownClock := p.1.turboCooldownClock.restart now
       isCollisionEnabled := false }, true)
  else p

/-- The monster's collision block (lines 555-564): it reads `turboCooldownClock`, adds 10
and restarts `monsterCooldownClock`. -/
def monsterCollision (env : Env) (mousePos : Int × Int) (now : Int) (p : GameState × Bool) :
    GameState × Bool :=
  if p.1.monster.birdSprite.getGlobalBounds.contains mousePos.1 mousePos.2 &&
      decide (p.1.turboCooldownClock.getElapsedTime now > collisionCooldown) then
    let r :=
      p.1.monsterMovement.randomizeStart env p.1.rng p.1.monster.birdSprite p.1.windowSize
    ({ p.1 with
       score := p.1.score + 10
       streak := p.1.streak + 1
       monsterMovement := r.1
       monster := { p.1.monster with birdSprite := r.2.1 }
       rng := r.2.2
       respawnLog := p.1.respawnLog ++ [.hit .monster]
       monsterCooldownClock := p.1.monsterCooldownClock.restart now
       isCollisionEnabled := false }, true)
  else p

/-- The miss block (lines 566-575), given the local `hit`. -/
def missBlock (p : GameState × Bool) : GameState :=
  if !p.2 then
    let missedShots := p.1.missedShots + 1
    { p.1 with
      missedShots := missedShots
      streak := 0
      score := if missedShots ≥ 5 then p.1.score - 10 else p.1.score }
  else p.1

/-- The four collision blocks in source order, from `hit = false`. -/
def collisionBlocks (env : Env) (mousePos : Int × Int) (now : Int) (s : GameState) :
    GameState × Bool :=
  monsterCollision env mousePos now
    (turboCollision env mousePos now
      (blueCollision env mousePos now
        (whiteCollision env mousePos now (s, false))))

/-- The collision pass `if (isCollisionEnabled) { … }` (lines 518-578). -/
def collisionPass (env : Env) (mousePos : Int × Int) (now : Int) (s : GameState) :
    GameState :=
  if s.isCollisionEnabled then
    { missBlock (collisionBlocks env mousePos now s) with isCollisionEnabled := false }
  else s

/-- The two tier unlocks (lines 598-608). -/
def unlockTiers (env : Env) (s : GameState) : GameState :=
  let s :=
    if decide (s.streak ≥ 6) && !s.turboBirdActive then
      let r := s.turboMovement.randomizeStart env s.rng s.turbo.birdSprite s.windowSize
      { s with
        turboBirdActive := true
        turboMovement := r.1
        turbo := { s.turbo with birdSprite := r.2.1 }
        rng := r.2.2
        respawnLog := s.respawnLog ++ [.unlock .turbo] }
    else s
  if decide (s.streak ≥ 8) && !s.monsterActive then
    let r := s.monsterMovement.randomizeStart env s.rng s.monster.birdSprite s.windowSize
    { s with
      monsterActive := true
      monsterMovement := r.1
      monster := { s.monster with birdSprite := r.2.1 }
      rng := r.2.2
      respawnLog := s.respawnLog ++ [.unlock .monster] }
  else s

/-- The updates of the white and blue birds (lines 613-616). -/
def updateBasicBirds (env : Env) (now : Int) (s : GameState) : Option GameState :=
  (s.white.updateAnimation now).bind fun white =>
    let rw := s.whiteMovement.update env s.rng white.birdSprite s.windowSize
    (s.blue.updateAnimation now).bind fun blue =>
      let rb := s.blueMovement.update env rw.2.2 blue.birdSprite s.windowSize
      some
        { s with
          white := { white with birdSprite := rw.2.1 }
          whiteMovement := rw.1
          blue := { blue with birdSprite := rb.2.1 }
          blueMovement := rb.1
          rng := rb.2.2 }

/-- The update of the turbo bird and its mode toggle (lines 617-628). -/
def updateTurbo (env : Env) (now : Int) (deltaTime : ℚ) (s : GameState) : Option GameState :=
  let upd : Option GameState :=
    if s.turboBirdActive then
      (s.turbo.updateAnimation now).bind fun turbo =>
        let r := s.turboMovement.update env s.rng turbo.birdSprite s.windowSize deltaTime
        some { s with turbo := { turbo with birdSprite := r.2.1 }, turboMovement := r.1,
                      rng := r.2.2 }
    else some s
  upd.bind fun s =>
    if decide (s.modeSwitch.getElapsedTime now > 1000000) && s.turboBirdActive then
      some { s with turboMovement := s.turboMovement.toggleMovementMode,
                    modeSwitch := s.modeSwitch.restart now }
    else some s

/-- The update of the monster and its mode toggle (lines 630-641). -/
def updateMonster (env : Env) (now : Int) (deltaTime : ℚ) (s : GameState) :
    Option GameState :=
  let upd : Option GameState :=
    if s.monsterActive then
      (s.monster.updateAnimation now).bind fun monster =>
        let r := s.monsterMovement.update env s.rng monster.birdSprite s.windowSize deltaTime
        some { s with monster := { monster with birdSprite := r.2.1 }, monsterMovement := r.1,
                      rng := r.2.2 }
    else some s
  upd.bind fun s =>
    if decide (s.modeSwitch.getElapsedTime now > 1000000) && s.monsterActive then
      some { s with monsterMovement := s.monsterMovement.toggleMovementMode,
                    modeSwitch := s.modeSwitch.restart now }
    else some s

/-- The updates of the targets (lines 610-641); `deltaTime` is in seconds. -/
def updateBirds (env : Env) (now : Int) (s : GameState) : Option GameState :=
  let deltaTime : ℚ := (s.deltaClock.getElapsedTime now : ℚ) / 1000000
  (updateBasicBirds env now { s with deltaClock := s.deltaClock.restart now }).bind fun s =>
    (updateTurbo env now deltaTime s).bind fun s => updateMonster env now deltaTime s

/-- How one pass through the loop body ends: at its end (`next`), or at the `return` of the
game-over block (`ret`). -/
inductive Flow where
  | next (s : GameState)
  | ret (s : GameState)
deriving DecidableEq

/-- The state a `Flow` carries. -/
def Flow.state : Flow → GameState
  | .next s => s
  | .ret s => s

/-- The pointer position the frame uses (lines 508-515). -/
def aimPoint (s : GameState) (inp : FrameInput) : Int × Int :=
  if s.cursorConstrained then constrainCursor s.windowSize inp.mouse else inp.mouse

/-- One pass through the body of `while (window.isOpen())` (lines 467-673). `none`: an
animation update divided by zero. The texts, the drawing and `shotgun.rotateToMouse`, which
writes only the rotation of the shotgun's sprite, are not part of the state. -/
def frame (env : Env) (inp : FrameInput) (s : GameState) : Option Flow :=
  let s := pollEvents inp.now s inp.events
  (s.shotgun.updateAnimation inp.now).bind fun shotgun =>
    let s := { s with shotgun := shotgun }
    let s := collisionPass env (aimPoint s inp) inp.now s
    if s.missedShots ≥ 10 then some (.ret { s with windowOpen := false })
    else (updateBirds env inp.now (unlockTiers env s)).map .next

/-- The high-score update after the loop (lines 675-689); `fileOpens` tells whether the
score file could be opened for writing. -/
def updateHighScore (fileOpens : Bool) (s : GameState) : GameState :=
  if s.score > s.highScore then
    { s with highScore := s.score, scoreFile := if fileOpens then s.score else s.scoreFile }
  else s

/-- How a run of the loop over finitely many frame inputs stands: still in the loop
(`running`, inputs used up), left through the loop condition (`loopExit`), or left through
the game-over `return` (`returned`). -/
inductive Outcome where
  | running (s : GameState)
  | loopExit (s : GameState)
  | returned (s : GameState)
deriving DecidableEq

/-- The state an `Outcome` carries. -/
def Outcome.state : Outcome → GameState
  | .running s => s
  | .loopExit s => s
  | .returned s => s

/-- The loop `while (window.isOpen()) { … }` over the given frame inputs. -/
def runLoop (env : Env) : List FrameInput → GameState → Option Outcome
  | inps, s =>
    if !s.windowOpen then some (.loopExit s)
    else
      match inps with
      | [] => some (.running s)
      | inp :: rest =>
        match frame env inp s with
        | none => none
        | some (.ret s') => some (.returned s')
        | some (.next s') => runLoop env rest s'

/-- The arguments and surroundings of a call of `GameWindow`: the window, the score file,
the generator, the four birds and the three counters passed by reference, the instants at
which the cooldown clocks (`t0`), the shotgun (`tPistol`) and the loop clocks (`t1`) are
constructed, the size of the shotgun texture, and `time(0)` at each of the four movement
constructors. -/
structure Entry where
  windowSize : Nat × Nat
  windowOpen : Bool
  scoreFile : Int
  rng : Rng
  white : Bird
  blue : Bird
  turbo : Bird
  monster : Bird
  score : Int
  highScore : Int
  streak : Int
  t0 : Int
  tPistol : Int
  t1 : Int
  pistolTexX : Nat
  pistolTexY : Nat
  seedWhite : Nat
  seedBlue : Nat
  seedTurbo : Nat
  seedMonster : Nat

/-- The state of `GameWindow` on reaching its loop (lines 389-462). -/
def GameWindow.init (env : Env) (a : Entry) : Option GameState :=
  (PistolSprite.new a.pistolTexX a.pistolTexY 3 2 100000 a.tPistol).map fun shotgun =>
    let mw := Movement.new 3 a.seedWhite a.rng
    let rw := mw.1.randomizeStart env mw.2 a.white.birdSprite a.windowSize
    let mb := Movement.new 4 a.seedBlue rw.2.2
    let rb := mb.1.randomizeStart env mb.2 a.blue.birdSprite a.windowSize
    let mt := SinMovement.new 300 7 10 a.seedTurbo rb.2.2
    let rt := mt.1.randomizeStart env mt.2 a.turbo.birdSprite a.windowSize
    let mm := SinMovement.new 200 7 5 a.seedMonster rt.2.2
    let rm := mm.1.randomizeStart env mm.2 a.monster.birdSprite a.windowSize
    { windowSize := a.windowSize
      windowOpen := a.windowOpen
      scoreFile := a.scoreFile
      rng := rm.2.2
      white := { a.white with birdSprite := rw.2.1 }
      blue := { a.blue with birdSprite := rb.2.1 }
      turbo := { a.turbo with birdSprite := rt.2.1 }
      monster := { a.monster with birdSprite := rm.2.1 }
      score := a.score
      highScore := a.highScore
      streak := a.streak
      whiteCooldownClock := ⟨a.t0⟩
      blueCooldownClock := ⟨a.t0⟩
      turboCooldownClock := ⟨a.t0⟩
      monsterCooldownClock := ⟨a.t0⟩
      isCollisionEnabled := false
      clickCooldownClock := ⟨a.t0⟩
      turboBirdActive := false
      monsterActive := false
      shotgun := shotgun.setPosition 780 790
      cursorConstrained := false
      whiteMovement := rw.1
      blueMovement := rb.1
      turboMovement := rt.1
      monsterMovement := rm.1
      deltaClock := ⟨a.t1⟩
      modeSwitch := ⟨a.t1⟩
      missedShots := 0
      respawnLog := [] }

/-- The function `GameWindow`, run over the given frame inputs: the loop, then the
high-score update when the loop is left through its condition. -/
def GameWindow (env : Env) (a : Entry) (inps : List FrameInput) (fileOpens : Bool) :
    Option Outcome :=
  (GameWindow.init env a).bind fun s0 =>
    (runLoop env inps s0).map fun o =>
      match o with
      | .loopExit s => .loopExit (updateHighScore fileOpens s)
      | o => o

/-! ## `main` and the menus -/

/-- The events of the window as the two menus tell them apart. A left click carries the
results of the hit tests `getGlobalBounds().contains(mousePosition)` of the play button and
the guide button of `mainMenu` and of the back button of `showGuidelines`. -/
inductive MenuEvent where
  | closed
  | escapePressed
  | leftClick (onPlay onGuide onBack : Bool)
  | other
deriving DecidableEq, Repr

/-- The menu function whose loop polls the events. -/
inductive Screen where
  | mainMenu
  | showGuidelines
deriving DecidableEq, Repr

/-- How the menus stand after the events given: still polling in the loop of a menu
(`polling`), left because the window was closed (`quit`), or at the call of `GameWindow` by
the play button (`play`). -/
inductive MenuFlow where
  | polling (scr : Screen)
  | quit
  | play
deriving DecidableEq, Repr

/-- The event loops of `mainMenu` (lines 897-933) and `showGuidelines` (lines 743-766) over
the events of the window. A menu called by the other returns only when the window is closed,
and a closed window yields no further event, so the nest of calls is followed by the
innermost menu alone. The play button is tested before the guide button; `showGuidelines`
called after `GameWindow` has returned finds the window closed. The sound buttons, the hover
scales, the title birds and the drawing are not part of the state. -/
def menus : Screen → List MenuEvent → MenuFlow
  | scr, [] => .polling scr
  | _, .closed :: _ => .quit
  | _, .escapePressed :: _ => .quit
  | .mainMenu, .leftClick onPlay onGuide _ :: es =>
    if onPlay then .play
    else if onGuide then menus .showGuidelines es
    else menus .mainMenu es
  | .showGuidelines, .leftClick _ _ onBack :: es =>
    if onBack then menus .mainMenu es else menus .showGuidelines es
  | scr, .other :: es => menus scr es

/-- The variables of `main` that every call shares by reference: the window, the number the
score file holds, and the three counters. -/
structure MainVars where
  windowOpen : Bool
  scoreFile : Int
  score : Int
  highScore : Int
  streak : Int
deriving DecidableEq, Repr

/-- The variables of `main` as a state of `GameWindow` leaves them. -/
def GameState.mainVars (s : GameState) : MainVars :=
  ⟨s.windowOpen, s.scoreFile, s.score, s.highScore, s.streak⟩

/-- What a call of `GameWindow` takes from outside the variables of `main`: its
surroundings (`entry`, whose window flag, score file and counters are not used), the inputs
of its frames, and whether the score file can be opened for writing. -/
structure Call where
  entry : Entry
  frames : List FrameInput
  fileOpens : Bool

/-- A call `GameWindow(window, …, ScoreFile, score, highScore, streak)` on the variables of
`main`. -/
def Call.run (env : Env) (c : Call) (v : MainVars) : Option Outcome :=
  GameWindow env
    { c.entry with windowOpen := v.windowOpen, scoreFile := v.scoreFile, score := v.score,
                   highScore := v.highScore, streak := v.streak }
    c.frames c.fileOpens

/-- The high score `main` loads (lines 1037-1047): the number read from the score file, 0
when the file cannot be opened or holds no number (`none`). -/
def loadHighScore (file : Option Int) : Int := file.getD 0

/-- How a run of `main` stands: in the loop of a menu (`inMenus`) or of a round (`inRound`)
with the inputs used up, or at its `return 0` (`finished`) with the variables as the last
call left them. -/
inductive MainOutcome where
  | inMenus (scr : Screen)
  | inRound (s : GameState)
  | finished (s : GameState)
deriving DecidableEq

/-- The last statement of `main`, line 1073: the call of `GameWindow` after `mainMenu` has
returned. -/
def lastCall (env : Env) (last : Call) (v : MainVars) : Option MainOutcome :=
  (last.run env v).map fun o =>
    match o with
    | .running s => .inRound s
    | .loopExit s => .finished s
    | .returned s => .finished s

/-- The function `main` (lines 1032-1076): the high score is loaded, the window is opened,
`mainMenu` is called and then `GameWindow`. `file` is the number in the score file
(`scoreFile` starts as the number a read of the file gives), `events` are the events the
menus poll, `round` is the call of `GameWindow` by the play button and `last` the call of
line 1073. The birds and the generator, which the menus also write, reach the calls through
their surroundings. -/
def main (env : Env) (file : Option Int) (events : List MenuEvent) (round last : Call) :
    Option MainOutcome :=
  let v0 : MainVars :=
    { windowOpen := true, scoreFile := loadHighScore file, score := 0,
      highScore := loadHighScore file, streak := 0 }
  match menus .mainMenu events with
  | .polling scr => some (.inMenus scr)
  | .quit => lastCall env last { v0 with windowOpen := false }
  | .play =>
    (round.run env v0).bind fun o =>
      match o with
      | .running s => some (.inRound s)
      | .loopExit s => lastCall env last s.mainVars
      | .returned s => lastCall env last s.mainVars

/-! ## Auxiliary definitions for the statements -/

/-- The variables that neither the event loop nor the updates of the targets write. -/
structure Progress where
  score : Int
  highScore : Int
  scoreFile : Int
  streak : Int
  missedShots : Int
  turboBirdActive : Bool
  monsterActive : Bool
  respawnLog : List Respawn
deriving DecidableEq

/-- The `Progress` part of a state. -/
def GameState.progress (s : GameState) : Progress :=
  ⟨s.score, s.highScore, s.scoreFile, s.streak, s.missedShots, s.turboBirdActive,
    s.monsterActive, s.respawnLog⟩

/-- The variables no collision block writes. -/
def GameState.tiers (s : GameState) : Bool × Bool × Int × Int × Bool :=
  (s.turboBirdActive, s.monsterActive, s.highScore, s.scoreFile, s.windowOpen)

/-- The number of unlock respawns of tier `t` issued so far. -/
def unlockCount (t : Tier) (s : GameState) : Nat := s.respawnLog.count (Respawn.unlock t)

/-- Each tier's unlock respawn has been issued once if the tier is active, and never
otherwise. -/
def unlockedOnce (s : GameState) : Prop :=
  unlockCount Tier.turbo s = (if s.turboBirdActive then 1 else 0) ∧
  unlockCount Tier.monster s = (if s.monsterActive then 1 else 0)

/-- The state of a frame after its collision pass, given the shotgun after its animation
update (lines 467-578). -/
def afterCollision (env : Env) (inp : FrameInput) (s : GameState) (shotgun : PistolSprite) :
    GameState :=
  collisionPass env (aimPoint { pollEvents inp.now s inp.events with shotgun := shotgun } inp)
    inp.now { pollEvents inp.now s inp.events with shotgun := shotgun }

/-- One frame per instant of the list, each with a single left click and the pointer
at `m`. -/
def clicksAt (m : Int × Int) : List Int → List FrameInput
  | [] => []
  | t :: ts => ⟨[Event.leftClick], t, m⟩ :: clicksAt m ts

/-! ## Concrete data used by the evaluations below -/

/-- A library instance: `rand()` always returns 0 and `sin` is replaced by 0. -/
def demoEnv : Env := ⟨fun _ _ => 0, fun _ => 0⟩

/-- A bird at `(x, y)` with a 200 × 100 frame on an 800 × 100 sheet, drawn at scale `sx`
horizontally: its bounds are 100 wide and 50 high. -/
def demoBird (x y sx : ℚ) : Bird :=
  { birdSprite :=
      { posX := x, posY := y, scaleX := sx, scaleY := 1 / 2, originX := 0, originY := 0,
        textureRect := ⟨0, 0, 200, 100⟩ }
    textureSizeX := 800
    textureSizeY := 100
    frameWidth := 200
    frameHeight := 100
    currentFrame := 0
    totalFrames := 3
    frameDuration := 100000
    animationClock := ⟨0⟩ }

/-- The shotgun as constructed at instant 0 from a 900 × 400 texture, placed as in
`GameWindow`. -/
def demoShotgun : PistolSprite :=
  { pistolSprite :=
      { posX := 780, posY := 790, scaleX := 4 / 5, scaleY := 4 / 5, originX := 400,
        originY := 380, textureRect := ⟨0, 0, 300, 190⟩ }
    textureSizeX := 900
    textureSizeY := 400
    frameWidth := 300
    frameHeight := 190
    currentFrame := 0
    totalFrames := 6
    frameDuration := 100000
    animationClock := ⟨0⟩
    isShooting := false
    cooldownClock := ⟨0⟩
    shootCooldown := 740000
    fireSound := 0
    reloadSound := 0 }

/-- A state of the loop in a 900 × 800 window, no shot armed: the white bird covers
`[101, 201) × [100, 150)`, the blue bird `[152, 252) × [120, 170)`; the turbo bird and the
monster are locked and rest, mirrored, at the right-hand spawn position `x = 950`, where
they cover `[850, 950) × [60, 110)` and `[850, 950) × [0, 50)`. All clocks were started at
instant 0. -/
def demoIdle : GameState :=
  { windowSize := (900, 800)
    windowOpen := true
    scoreFile := 30
    rng := ⟨0, 0⟩
    white := demoBird 101 100 (1 / 2)
    blue := demoBird 152 120 (1 / 2)
    turbo := demoBird 950 60 (-(1 / 2))
    monster := demoBird 950 0 (-(1 / 2))
    score := 0
    highScore := 30
    streak := 0
    whiteCooldownClock := ⟨0⟩
    blueCooldownClock := ⟨0⟩
    turboCooldownClock := ⟨0⟩
    monsterCooldownClock := ⟨0⟩
    isCollisionEnabled := false
    clickCooldownClock := ⟨0⟩
    turboBirdActive := false
    monsterActive := false
    shotgun := demoShotgun
    cursorConstrained := false
    whiteMovement := ⟨3, 1, 0, true⟩
    blueMovement := ⟨4, 1, 0, true⟩
    turboMovement := ⟨300, 7, 10, -1, 0, false, 0, true⟩
    monsterMovement := ⟨200, 7, 5, -1, 0, false, 0, true⟩
    deltaClock := ⟨0⟩
    modeSwitch := ⟨0⟩
    missedShots := 0
    respawnLog := [] }

/-- The state `demoIdle` after a left click at instant 2 s: the click is accepted, the
collision pass is armed and the shotgun fires. -/
def demoState : GameState := handleEvent 2000000 demoIdle .leftClick

/-- The state `demoState` with four misses on record. -/
def demoFourMisses : GameState := { demoState with missedShots := 4 }

/-- Three shots at `(450, 600)`, where no bird is, from `demoFourMisses`: the armed pass at
instant 2 s, then a click and its pass at 3 s, then a click and its pass at 4 s. -/
def demoThreeMisses : GameState :=
  collisionPass demoEnv (450, 600) 4000000
    (handleEvent 4000000
      (collisionPass demoEnv (450, 600) 3000000
        (handleEvent 3000000
          (collisionPass demoEnv (450, 600) 2000000 demoFourMisses) .leftClick)) .leftClick)

/-- The state after the armed pass of `demoState` at instant 2 s with the aim point
`(860, 10)`, inside the monster's box. -/
def demoMonsterShot : GameState := collisionPass demoEnv (860, 10) 2000000 demoState

/-- The state after a second click, 0.75 s later, and its pass at the same aim point. -/
def demoMonsterShotAgain : GameState :=
  collisionPass demoEnv (860, 10) 2750000 (handleEvent 2750000 demoMonsterShot .leftClick)

/-- The state `demoFourMisses` after its armed pass at 2 s and the next click at 3 s. -/
def demoSecondShot : GameState :=
  handleEvent 3000000 (collisionPass demoEnv (450, 600) 2000000 demoFourMisses) .leftClick

/-- The state `demoSecondShot` after its pass at 3 s and the next click at 4 s. -/
def demoThirdShot : GameState :=
  handleEvent 4000000 (collisionPass demoEnv (450, 600) 3000000 demoSecondShot) .leftClick

/-- A call of `GameWindow` in an open 900 × 800 window, with score 102, high score 30 (also
in the score file) and streak 0, every clock constructed at instant 0. -/
def demoEntry : Entry :=
  { windowSize := (900, 800)
    windowOpen := true
    scoreFile := 30
    rng := ⟨0, 0⟩
    white := demoBird 0 0 (1 / 2)
    blue := demoBird 0 0 (1 / 2)
    turbo := demoBird 0 0 (1 / 2)
    monster := demoBird 0 0 (1 / 2)
    score := 102
    highScore := 30
    streak := 0
    t0 := 0
    tPistol := 0
    t1 := 0
    pistolTexX := 900
    pistolTexY := 400
    seedWhite := 0
    seedBlue := 0
    seedTurbo := 0
    seedMonster := 0 }

/-- The state of `demoEntry` on reaching the loop: with `demoEnv` every bird rests,
mirrored, at `x = 950`, `y = 0` and covers `[850, 950) × [0, 50)`. -/
def demoInit : GameState := (GameWindow.init demoEnv demoEntry).getD demoState

/-- The respawn `Movement::randomizeStart` of a sprite 100 wide in a 900 × 800 window when
`rand() % 2` is 0 (right to left). -/
def demoRespawn : Movement × Sprite × Rng :=
  Movement.randomizeStart demoEnv ⟨3, 1, 0, true⟩ ⟨0, 0⟩ (demoBird 0 0 (1 / 2)).birdSprite
    (900, 800)

/-- The respawn `SinMovement::randomizeStart` of the same sprite in the same window. -/
def demoSinRespawn : SinMovement × Sprite × Rng :=
  SinMovement.randomizeStart demoEnv ⟨300, 7, 10, 1, 0, true, 0, true⟩ ⟨0, 0⟩
    (demoBird 0 0 (1 / 2)).birdSprite (900, 800)

/-! ## Auxiliary definitions for the statements on the shotgun, the birds and the round -/

/-- The point values of the in-game guidelines (the text of `showGuidelines`, lines
726-729). -/
def advertisedPoints : Tier → Int
  | .white => 1
  | .blue => 2
  | .turbo => 4
  | .monster => 7

/-- The increments `score += …` of the four collision blocks. -/
def creditedPoints : Tier → Int
  | .white => 1
  | .blue => 2
  | .turbo => 4
  | .monster => 10

/-- The sum of the points of the credited hits on record. -/
def hitPoints : List Respawn → Int
  | [] => 0
  | .hit t :: l => creditedPoints t + hitPoints l
  | .unlock _ :: l => hitPoints l

/-- The number of penalised misses among the first `missedShots` misses: the fifth and
every later one. -/
def penalties (missedShots : Int) : Int := if missedShots ≥ 5 then missedShots - 4 else 0

/-- The score less the credited hit points plus the penalties applied: the score with
which the round was entered. -/
def balance (s : GameState) : Int :=
  s.score - hitPoints s.respawnLog + 10 * penalties s.missedShots

/-- The invariant of the loop head: the balance is the score at entry, there are between 0
and 9 misses, and the monster is active only if the turbo bird is. -/
def roundInvariant (entryScore : Int) (s : GameState) : Prop :=
  balance s = entryScore ∧ 0 ≤ s.missedShots ∧ s.missedShots ≤ 9 ∧
    (s.monsterActive = true → s.turboBirdActive = true)

/-- The shotgun's cooldown is 0.74 s and its cooldown clock was started at most 10 ms after
the click clock: a click that the click cooldown (0.75 s) accepts then finds the shotgun
ready. -/
def clicksFire (s : GameState) : Prop :=
  s.shotgun.shootCooldown = 740000 ∧
    s.shotgun.cooldownClock.start ≤ s.clickCooldownClock.start + 10000

/-- The variables of the trigger: the click clock, the shotgun and the armed flag. -/
def GameState.trigger (s : GameState) : Clock × PistolSprite × Bool :=
  (s.clickCooldownClock, s.shotgun, s.isCollisionEnabled)

/-- A call of one of the two methods of the shotgun, at an instant. -/
inductive PistolCall where
  | startShooting (now : Int)
  | updateAnimation (now : Int)
deriving DecidableEq, Repr

/-- The shotgun after one call. -/
def PistolSprite.call (p : PistolSprite) : PistolCall → Option PistolSprite
  | .startShooting now => some (p.startShooting now)
  | .updateAnimation now => p.updateAnimation now

/-- The shotgun after a sequence of calls. -/
def PistolSprite.calls : PistolSprite → List PistolCall → Option PistolSprite
  | p, [] => some p
  | p, c :: cs => (p.call c).bind fun q => q.calls cs

/-- The turbo bird's movement (speed 300, amplitude 7, frequency 10) right after a
left-to-right respawn: wavy mode, `elapsedTime = 0`. -/
def demoWavy : SinMovement := ⟨300, 7, 10, 1, 0, true, 0, true⟩

/-- A sprite 100 wide just respawned left to right at height 50. -/
def demoWavySprite : Sprite := (demoBird (-100) 50 (1 / 2)).birdSprite

/-- One call of `SinMovement::update` with `deltaTime = 0.1` after the respawn. -/
def demoOneStep (env : Env) : SinMovement × Sprite × Rng :=
  demoWavy.update env ⟨0, 0⟩ demoWavySprite (900, 800) (1 / 10)

/-- Two calls of `SinMovement::update` with `deltaTime = 0.05` each after the respawn. -/
def demoTwoSteps (env : Env) : SinMovement × Sprite × Rng :=
  (demoWavy.update env ⟨0, 0⟩ demoWavySprite (900, 800) (1 / 20)).1.update env
    (demoWavy.update env ⟨0, 0⟩ demoWavySprite (900, 800) (1 / 20)).2.2
    (demoWavy.update env ⟨0, 0⟩ demoWavySprite (900, 800) (1 / 20)).2.1 (900, 800) (1 / 20)

/-- The shotgun of `GameWindow` as its constructor leaves it at instant 0 (900 × 400
texture). -/
def demoNewShotgun : PistolSprite :=
  (PistolSprite.new 900 400 3 2 100000 0).getD demoShotgun

/-- The calls: a shot at 1 s, then one animation update at 1.2 s. -/
def demoShotThenUpdate : List PistolCall :=
  [.startShooting 1000000, .updateAnimation 1200000]

/-- The shotgun `demoNewShotgun` after the calls `demoShotThenUpdate`: the animation is in
progress at frame 1. -/
def demoShooting : PistolSprite :=
  (demoNewShotgun.calls demoShotThenUpdate).getD demoShotgun

/-- Three frames with a click at `(860, 10)`, at 2 s, 3.3 s and 4.6 s. -/
def demoThreeHits : List FrameInput := clicksAt (860, 10) [2000000, 3300000, 4600000]

/-- The loop after the frames `demoThreeHits` from `demoInit`: the streak is 9 and both
tiers are unlocked. -/
def demoBothActive : Outcome :=
  (runLoop demoEnv demoThreeHits demoInit).getD (.running demoState)

/-- A call of `GameWindow` like `demoEntry`, with score 0 as `main` passes it. -/
def demoFreshEntry : Entry := { demoEntry with score := 0 }

/-- The state of `demoFreshEntry` on reaching the loop. -/
def demoFreshInit : GameState := (GameWindow.init demoEnv demoFreshEntry).getD demoState

/-- A call of `GameWindow` like `demoFreshEntry`, but the shotgun (line 434) is constructed
20 ms after the click clock (line 399), and the loop clocks 30 ms after it. -/
def demoLateStart : Entry := { demoFreshEntry with tPistol := 20000, t1 := 30000 }

/-- The state of `demoLateStart` on reaching the loop. -/
def demoLateInit : GameState := (GameWindow.init demoEnv demoLateStart).getD demoState

/-- Two frames with a click at `(860, 10)`, then ten frames one second apart with a click at
`(450, 600)`, where no bird is. -/
def demoRound : List FrameInput :=
  clicksAt (860, 10) [2000000, 3300000] ++
    clicksAt (450, 600)
      [4600000, 5600000, 6600000, 7600000, 8600000, 9600000, 10600000, 11600000, 12600000,
        13600000]

/-- The loop after the frames `demoRound` from `demoFreshInit`. -/
def demoRoundEnd : Outcome :=
  (runLoop demoEnv demoRound demoFreshInit).getD (.running demoState)

/-- A frame at 5.9 s in which Escape is pressed. -/
def demoEscape : FrameInput := ⟨[.escapePressed], 5900000, (0, 0)⟩

/-- The events the menus poll: a click on the guide button, a click on the back button,
then a click on the play button. -/
def demoMenuEvents : List MenuEvent :=
  [.other, .leftClick false true false, .leftClick false false true,
    .leftClick true false false]

/-- A round in the surroundings of `demoEntry`: the three shots `demoThreeHits`, then
Escape. -/
def demoQuitRound : Call := ⟨demoEntry, demoThreeHits ++ [demoEscape], true⟩

/-- Twelve frames 1.3 s apart with a click at `(860, 10)`, then ten frames one second apart
with a click at `(450, 600)`, where no bird is. -/
def demoLongRound : List FrameInput :=
  clicksAt (860, 10)
      [2000000, 3300000, 4600000, 5900000, 7200000, 8500000, 9800000, 11100000, 12400000,
        13700000, 15000000, 16300000] ++
    clicksAt (450, 600)
      [24600000, 25600000, 26600000, 27600000, 28600000, 29600000, 30600000, 31600000,
        32600000, 33600000]

/-- A round in the surroundings of `demoEntry` that ends at the tenth miss. -/
def demoLostRound : Call := ⟨demoEntry, demoLongRound, true⟩

/-- The call of line 1073 in the surroundings of `demoEntry`; the inputs `demoThreeHits` are
at hand. -/
def demoLastCall : Call := ⟨demoEntry, demoThreeHits, true⟩

/-- The state at the end of a run of `main`, `demoState` if the run does not reach it. -/
def mainEnd : Option MainOutcome → GameState
  | some (.finished s) => s
  | _ => demoState

/-- The end of `main` with 5 in the score file, the events `demoMenuEvents` and the round
`demoQuitRound`. -/
def demoMainQuit : GameState :=
  mainEnd (main demoEnv (some 5) demoMenuEvents demoQuitRound demoLastCall)

/-- The end of `main` with 5 in the score file, the events `demoMenuEvents` and the round
`demoLostRound`. -/
def demoMainLost : GameState :=
  mainEnd (main demoEnv (some 5) demoMenuEvents demoLostRound demoLastCall)

/-! ## Theorems -/

/-! ### The collision blocks -/

theorem whiteCollision_of_not_contains (env : Env) (m : Int × Int) (now : Int)
    (p : GameState × Bool)
    (h : p.1.white.birdSprite.getGlobalBounds.contains m.1 m.2 = false) :
    whiteCollision env m now p = p := by
  simp [whiteCollision, h]

/-- The blue block does nothing when its box does not contain the aim point. -/
theorem blueCollision_of_not_contains (env : Env) (m : Int × Int) (now : Int)
    (p : GameState × Bool)
    (h : p.1.blue.birdSprite.getGlobalBounds.contains m.1 m.2 = false) :
    blueCollision env m now p = p := by
  simp [blueCollision, h]

/-- The turbo block does nothing when its box does not contain the aim point. -/
theorem turboCollision_of_not_contains (env : Env) (m : Int × Int) (now : Int)
    (p : GameState × Bool)
    (h : p.1.turbo.birdSprite.getGlobalBounds.contains m.1 m.2 = false) :
    turboCollision env m now p = p := by
  simp [turboCollision, h]

/-- The monster block does nothing when its box does not contain the aim point. -/
theorem monsterCollision_of_not_contains (env : Env) (m : Int × Int) (now : Int)
    (p : GameState × Bool)
    (h : p.1.monster.birdSprite.getGlobalBounds.contains m.1 m.2 = false) :
    monsterCollision env m now p = p := by
  simp [monsterCollision, h]

/-- If `hit` is false after the white block, the block did not run. -/
theorem whiteCollision_no_hit (env : Env) (m : Int × Int) (now : Int) (p : GameState × Bool)
    (h : (whiteCollision env m now p).2 = false) :
    whiteCollision env m now p = p ∧ p.2 = false := by
  unfold whiteCollision at h ⊢
  split_ifs at h ⊢ with hc
  exact ⟨rfl, h⟩

/-- If `hit` is false after the blue block, the block did not run. -/
theorem blueCollision_no_hit (env : Env) (m : Int × Int) (now : Int) (p : GameState × Bool)
    (h : (blueCollision env m now p).2 = false) :
    blueCollision env m now p = p ∧ p.2 = false := by
  unfold blueCollision at h ⊢
  split_ifs at h ⊢ with hc
  exact ⟨rfl, h⟩

/-- If `hit` is false after the turbo block, the block did not run. -/
theorem turboCollision_no_hit (env : Env) (m : Int × Int) (now : Int) (p : GameState × Bool)
    (h : (turboCollision env m now p).2 = false) :
    turboCollision env m now p = p ∧ p.2 = false := by
  unfold turboCollision at h ⊢
  split_ifs at h ⊢ with hc
  exact ⟨rfl, h⟩

/-- If `hit` is false after the monster block, the block did not run. -/
theorem monsterCollision_no_hit (env : Env) (m : Int × Int) (now : Int) (p : GameState × Bool)
    (h : (monsterCollision env m now p).2 = false) :
    monsterCollision env m now p = p ∧ p.2 = false := by
  unfold monsterCollision at h ⊢
  split_ifs at h ⊢ with hc
  exact ⟨rfl, h⟩

/-- When the local `hit` is still false after the four blocks, none of them ran. -/
theorem collisionBlocks_no_hit (env : Env) (m : Int × Int) (now : Int) (s : GameState)
    (h : (collisionBlocks env m now s).2 = false) :
    collisionBlocks env m now s = (s, false) := by
  unfold collisionBlocks at h ⊢
  obtain ⟨e4, h3⟩ := monsterCollision_no_hit env m now _ h
  rw [e4] at h ⊢
  obtain ⟨e3, h2⟩ := turboCollision_no_hit env m now _ h3
  rw [e3] at h3 ⊢
  obtain ⟨e2, h1⟩ := blueCollision_no_hit env m now _ h2
  rw [e2] at h2 ⊢
  obtain ⟨e1, _⟩ := whiteCollision_no_hit env m now _ h1
  rw [e1]

/-- No box contains the aim point: no block runs. -/
theorem collisionBlocks_of_not_contains (env : Env) (m : Int × Int) (now : Int)
    (s : GameState)
    (hw : s.white.birdSprite.getGlobalBounds.contains m.1 m.2 = false)
    (hb : s.blue.birdSprite.getGlobalBounds.contains m.1 m.2 = false)
    (ht : s.turbo.birdSprite.getGlobalBounds.contains m.1 m.2 = false)
    (hm : s.monster.birdSprite.getGlobalBounds.contains m.1 m.2 = false) :
    collisionBlocks env m now s = (s, false) := by
  unfold collisionBlocks
  rw [whiteCollision_of_not_contains env m now (s, false) hw,
    blueCollision_of_not_contains env m now (s, false) hb,
    turboCollision_of_not_contains env m now (s, false) ht,
    monsterCollision_of_not_contains env m now (s, false) hm]

/-- The state after an armed collision pass that is a miss. -/
theorem collisionPass_of_no_hit (env : Env) (m : Int × Int) (now : Int) (s : GameState)
    (ha : s.isCollisionEnabled = true) (h : (collisionBlocks env m now s).2 = false) :
    collisionPass env m now s =
      { s with
        missedShots := s.missedShots + 1
        streak := 0
        score := if s.missedShots + 1 ≥ 5 then s.score - 10 else s.score
        isCollisionEnabled := false } := by
  simp [collisionPass, ha, collisionBlocks_no_hit env m now s h, missBlock]

/-! ### C1, C4, C5: the collision pass at concrete states -/

/-- C1, the code at the failing input: in `demoState` the aim point `(160, 130)` lies
inside the boxes of both the white bird, `[101, 201) × [100, 150)`, and the blue bird,
`[152, 252) × [120, 170)`, and one armed collision pass credits both: the score rises by
1 + 2 = 3 and the streak by 2, and both birds are respawned. -/
theorem collisionPass_credits_white_and_blue :
    demoState.isCollisionEnabled = true ∧
    (collisionPass demoEnv (160, 130) 2000000 demoState).score = demoState.score + 3 ∧
    (collisionPass demoEnv (160, 130) 2000000 demoState).streak = demoState.streak + 2 ∧
    (collisionPass demoEnv (160, 130) 2000000 demoState).respawnLog
      = [Respawn.hit Tier.white, Respawn.hit Tier.blue] := by
  decide!

/-- C4, the code at the failing input: the turbo bird of `demoState` is locked
(`turboBirdActive = false`), yet a shot at `(860, 70)`, inside its box, is credited: the
score rises by 4, the streak by 1, the bird is respawned (from `y = 60` to `y = 0`) and its
cooldown clock is restarted. -/
theorem collisionPass_credits_locked_turbo :
    demoState.turboBirdActive = false ∧
    (collisionPass demoEnv (860, 70) 2000000 demoState).score = demoState.score + 4 ∧
    (collisionPass demoEnv (860, 70) 2000000 demoState).streak = demoState.streak + 1 ∧
    (collisionPass demoEnv (860, 70) 2000000 demoState).respawnLog
      = [Respawn.hit Tier.turbo] ∧
    demoState.turbo.birdSprite.posY = 60 ∧
    (collisionPass demoEnv (860, 70) 2000000 demoState).turbo.birdSprite.posY = 0 ∧
    demoState.turboCooldownClock = ⟨0⟩ ∧
    (collisionPass demoEnv (860, 70) 2000000 demoState).turboCooldownClock = ⟨2000000⟩ := by
  decide!

/-- C5, the code at the failing input: the monster is credited at instant 2 s and again at
2.75 s, less than `collisionCooldown` (1.2 s) after its own last credited hit. Its block
reads `turboCooldownClock`, still started at 0, and restarts `monsterCooldownClock`, which
no test reads. -/
theorem monster_credited_twice_within_cooldown :
    demoMonsterShot.score = demoState.score + 10 ∧
    demoMonsterShot.respawnLog = [Respawn.hit Tier.monster] ∧
    demoMonsterShot.monsterCooldownClock = ⟨2000000⟩ ∧
    demoMonsterShot.turboCooldownClock = ⟨0⟩ ∧
    demoMonsterShotAgain.score = demoState.score + 20 ∧
    demoMonsterShotAgain.respawnLog = [Respawn.hit Tier.monster, Respawn.hit Tier.monster] ∧
    (2750000 : Int) - 2000000 < collisionCooldown := by
  decide!

/-! ### C6: a shot outside every box -/

/-- C6: in an armed collision pass whose aim point lies inside no target's bounding box,
nothing is credited and nothing is respawned: the state changes only in `missedShots`
(one more), `streak` (0), `score` (minus 10 from the fifth miss on, else unchanged) and the
armed flag; in particular the birds, their movements, the random generator, the cooldown
clocks and the respawn log are as before. More generally, the block of a target whose box
does not contain the aim point changes nothing at all. -/
theorem miss_when_aim_outside_every_box (env : Env) (m : Int × Int) (now : Int)
    (s : GameState) (ha : s.isCollisionEnabled = true)
    (hw : s.white.birdSprite.getGlobalBounds.contains m.1 m.2 = false)
    (hb : s.blue.birdSprite.getGlobalBounds.contains m.1 m.2 = false)
    (ht : s.turbo.birdSprite.getGlobalBounds.contains m.1 m.2 = false)
    (hm : s.monster.birdSprite.getGlobalBounds.contains m.1 m.2 = false) :
    collisionPass env m now s =
      { s with
        missedShots := s.missedShots + 1
        streak := 0
        score := if s.missedShots + 1 ≥ 5 then s.score - 10 else s.score
        isCollisionEnabled := false } ∧
    (collisionPass env m now s).score ≤ s.score ∧
    ((collisionPass env m now s).score = s.score ∨
      (collisionPass env m now s).score = s.score - 10) ∧
    (∀ p : GameState × Bool,
      (p.1.white.birdSprite.getGlobalBounds.contains m.1 m.2 = false →
        whiteCollision env m now p = p) ∧
      (p.1.blue.birdSprite.getGlobalBounds.contains m.1 m.2 = false →
        blueCollision env m now p = p) ∧
      (p.1.turbo.birdSprite.getGlobalBounds.contains m.1 m.2 = false →
        turboCollision env m now p = p) ∧
      (p.1.monster.birdSprite.getGlobalBounds.contains m.1 m.2 = false →
        monsterCollision env m now p = p)) := by
  have hblocks := collisionBlocks_of_not_contains env m now s hw hb ht hm
  have e := collisionPass_of_no_hit env m now s ha (by rw [hblocks])
  refine ⟨e, ?_, ?_, fun p => ⟨whiteCollision_of_not_contains env m now p,
    blueCollision_of_not_contains env m now p, turboCollision_of_not_contains env m now p,
    monsterCollision_of_not_contains env m now p⟩⟩
  · rw [e]; simp only []; split_ifs <;> omega
  · rw [e]; simp only []; split_ifs
    · exact Or.inr rfl
    · exact Or.inl rfl

/-- C6, witness: the shot at `(450, 600)` in `demoState`, where no bird is. -/
theorem miss_when_aim_outside_every_box_witness :
    (collisionPass demoEnv (450, 600) 2000000 demoState).score ≤ demoState.score ∧
    collisionPass demoEnv (450, 600) 2000000 demoState =
      { demoState with
        missedShots := demoState.missedShots + 1
        streak := 0
        score := if demoState.missedShots + 1 ≥ 5 then demoState.score - 10
          else demoState.score
        isCollisionEnabled := false } :=
  have h := miss_when_aim_outside_every_box demoEnv (450, 600) 2000000 demoState
    (by decide!) (by decide!) (by decide!) (by decide!) (by decide!)
  ⟨h.2.1, h.1⟩

/-! ### C3: the miss penalty -/

/-- C3, counterexample: from `missedShots = 4` and score 0, three consecutive misses leave
`missedShots = 7` and a score of -30, not -20: the miss that brings `missedShots` to 5 is
penalised too. -/
theorem three_misses_cost_thirty :
    demoFourMisses.missedShots = 4 ∧
    demoThreeMisses.missedShots = 7 ∧
    demoThreeMisses.score = demoFourMisses.score - 30 ∧
    demoThreeMisses.score ≠ demoFourMisses.score - 20 := by
  decide!

/-- C3, amended: starting from `missedShots = 4` and any score, three consecutive collision
passes that are misses (armed, and the local `hit` stays false; between two passes the loop
leaves `missedShots` and `score` as the earlier pass left them) end with `missedShots = 7`
and three penalties of 10 applied, `score = s - 30`: the miss that brings `missedShots` to 5
is already penalised (`score = s - 10` after it). -/
theorem three_misses_from_four (env : Env) (s0 s1 s2 : GameState)
    (m0 m1 m2 : Int × Int) (t0 t1 t2 : Int)
    (h4 : s0.missedShots = 4)
    (a0 : s0.isCollisionEnabled = true)
    (miss0 : (collisionBlocks env m0 t0 s0).2 = false)
    (l1 : s1.missedShots = (collisionPass env m0 t0 s0).missedShots ∧
      s1.score = (collisionPass env m0 t0 s0).score)
    (a1 : s1.isCollisionEnabled = true)
    (miss1 : (collisionBlocks env m1 t1 s1).2 = false)
    (l2 : s2.missedShots = (collisionPass env m1 t1 s1).missedShots ∧
      s2.score = (collisionPass env m1 t1 s1).score)
    (a2 : s2.isCollisionEnabled = true)
    (miss2 : (collisionBlocks env m2 t2 s2).2 = false) :
    (collisionPass env m0 t0 s0).missedShots = 5 ∧
    (collisionPass env m0 t0 s0).score = s0.score - 10 ∧
    (collisionPass env m2 t2 s2).missedShots = 7 ∧
    (collisionPass env m2 t2 s2).score = s0.score - 30 := by
  rw [collisionPass_of_no_hit env m0 t0 s0 a0 miss0] at l1 ⊢
  rw [collisionPass_of_no_hit env m1 t1 s1 a1 miss1] at l2
  rw [collisionPass_of_no_hit env m2 t2 s2 a2 miss2]
  simp only [] at l1 l2 ⊢
  obtain ⟨l1m, l1s⟩ := l1
  obtain ⟨l2m, l2s⟩ := l2
  rw [h4] at l1m ⊢
  rw [l2m, l2s, l1m, l1s]
  simp
  omega

/-- C3, witness: the three shots at `(450, 600)` from `demoFourMisses`. -/
theorem three_misses_from_four_witness :
    demoFourMisses.missedShots = 4 ∧
    (collisionPass demoEnv (450, 600) 4000000 demoThirdShot).missedShots = 7 ∧
    (collisionPass demoEnv (450, 600) 4000000 demoThirdShot).score
      = demoFourMisses.score - 30 :=
  have h := three_misses_from_four demoEnv demoFourMisses demoSecondShot demoThirdShot
    (450, 600) (450, 600) (450, 600) 2000000 3000000 4000000
    (by decide!) (by decide!) (by decide!) (by decide!) (by decide!) (by decide!)
    (by decide!) (by decide!) (by decide!)
  ⟨by decide!, h.2.2.1, h.2.2.2⟩

/-! ### Frame conditions of the loop body -/

theorem handleEvent_progress (now : Int) (s : GameState) (e : Event) :
    (handleEvent now s e).progress = s.progress := by
  cases e <;> simp only [handleEvent] <;> try rfl
  split_ifs <;> rfl

/-- The event loop writes none of the `Progress` variables. -/
theorem pollEvents_progress (now : Int) (es : List Event) :
    ∀ s : GameState, (pollEvents now s es).progress = s.progress := by
  induction es with
  | nil => intro s; rfl
  | cons e es ih =>
    intro s
    simp only [pollEvents]
    split_ifs
    · rw [ih, handleEvent_progress]
    · rfl

/-- Updating the white and blue birds writes none of the `Progress` variables. -/
theorem updateBasicBirds_progress (env : Env) (now : Int) (s s' : GameState)
    (h : updateBasicBirds env now s = some s') :
    s'.progress = s.progress ∧ s'.windowOpen = s.windowOpen ∧ s'.modeSwitch = s.modeSwitch := by
  simp only [updateBasicBirds, Option.bind_eq_some] at h
  obtain ⟨w, _, b, _, hs⟩ := h
  simp only [Option.some.injEq] at hs
  subst hs
  exact ⟨rfl, rfl, rfl⟩

/-- Updating the turbo bird writes none of the `Progress` variables. -/
theorem updateTurbo_progress (env : Env) (now : Int) (dt : ℚ) (s s' : GameState)
    (h : updateTurbo env now dt s = some s') :
    s'.progress = s.progress ∧ s'.windowOpen = s.windowOpen := by
  simp only [updateTurbo, Option.bind_eq_some] at h
  obtain ⟨u, hu, hs⟩ := h
  have hu' : u.progress = s.progress ∧ u.windowOpen = s.windowOpen := by
    split_ifs at hu
    · simp only [Option.bind_eq_some] at hu
      obtain ⟨t, _, ht⟩ := hu
      simp only [Option.some.injEq] at ht
      subst ht
      exact ⟨rfl, rfl⟩
    · simp only [Option.some.injEq] at hu
      subst hu
      exact ⟨rfl, rfl⟩
  split_ifs at hs <;> simp only [Option.some.injEq] at hs <;> subst hs
  · exact hu'
  · exact hu'

/-- Updating the monster writes none of the `Progress` variables. -/
theorem updateMonster_progress (env : Env) (now : Int) (dt : ℚ) (s s' : GameState)
    (h : updateMonster env now dt s = some s') :
    s'.progress = s.progress ∧ s'.windowOpen = s.windowOpen := by
  simp only [updateMonster, Option.bind_eq_some] at h
  obtain ⟨u, hu, hs⟩ := h
  have hu' : u.progress = s.progress ∧ u.windowOpen = s.windowOpen := by
    split_ifs at hu
    · simp only [Option.bind_eq_some] at hu
      obtain ⟨t, _, ht⟩ := hu
      simp only [Option.some.injEq] at ht
      subst ht
      exact ⟨rfl, rfl⟩
    · simp only [Option.some.injEq] at hu
      subst hu
      exact ⟨rfl, rfl⟩
  split_ifs at hs <;> simp only [Option.some.injEq] at hs <;> subst hs
  · exact hu'
  · exact hu'

/-- The updates of the targets write none of the `Progress` variables. -/
theorem updateBirds_progress (env : Env) (now : Int) (s s' : GameState)
    (h : updateBirds env now s = some s') :
    s'.progress = s.progress ∧ s'.windowOpen = s.windowOpen := by
  simp only [updateBirds, Option.bind_eq_some] at h
  obtain ⟨u, hu, v, hv, hs⟩ := h
  obtain ⟨h1, h1'⟩ := updateBasicBirds_progress env now _ u hu
  obtain ⟨h2, h2'⟩ := updateTurbo_progress env now _ u v hv
  obtain ⟨h3, h3'⟩ := updateMonster_progress env now _ v s' hs
  exact ⟨by rw [h3, h2, h1]; rfl, by rw [h3', h2', h1'.1]⟩



/-- The white block keeps the tier flags, the high score and the unlock counts. -/
theorem whiteCollision_tiers (env : Env) (m : Int × Int) (now : Int) (p : GameState × Bool)
    (t : Tier) :
    (whiteCollision env m now p).1.tiers = p.1.tiers ∧
    unlockCount t (whiteCollision env m now p).1 = unlockCount t p.1 := by
  unfold whiteCollision
  split_ifs
  · exact ⟨rfl, by simp [unlockCount, List.count_append]⟩
  · exact ⟨rfl, rfl⟩

/-- The blue block keeps the tier flags, the high score and the unlock counts. -/
theorem blueCollision_tiers (env : Env) (m : Int × Int) (now : Int) (p : GameState × Bool)
    (t : Tier) :
    (blueCollision env m now p).1.tiers = p.1.tiers ∧
    unlockCount t (blueCollision env m now p).1 = unlockCount t p.1 := by
  unfold blueCollision
  split_ifs
  · exact ⟨rfl, by simp [unlockCount, List.count_append]⟩
  · exact ⟨rfl, rfl⟩

/-- The turbo block keeps the tier flags, the high score and the unlock counts. -/
theorem turboCollision_tiers (env : Env) (m : Int × Int) (now : Int) (p : GameState × Bool)
    (t : Tier) :
    (turboCollision env m now p).1.tiers = p.1.tiers ∧
    unlockCount t (turboCollision env m now p).1 = unlockCount t p.1 := by
  unfold turboCollision
  split_ifs
  · exact ⟨rfl, by simp [unlockCount, List.count_append]⟩
  · exact ⟨rfl, rfl⟩

/-- The monster block keeps the tier flags, the high score and the unlock counts. -/
theorem monsterCollision_tiers (env : Env) (m : Int × Int) (now : Int) (p : GameState × Bool)
    (t : Tier) :
    (monsterCollision env m now p).1.tiers = p.1.tiers ∧
    unlockCount t (monsterCollision env m now p).1 = unlockCount t p.1 := by
  unfold monsterCollision
  split_ifs
  · exact ⟨rfl, by simp [unlockCount, List.count_append]⟩
  · exact ⟨rfl, rfl⟩

/-- The miss block keeps the tier flags, the high score and the unlock counts. -/
theorem missBlock_tiers (p : GameState × Bool) (t : Tier) :
    (missBlock p).tiers = p.1.tiers ∧ unlockCount t (missBlock p) = unlockCount t p.1 := by
  unfold missBlock
  split_ifs
  · exact ⟨rfl, rfl⟩
  · exact ⟨rfl, rfl⟩

/-- The collision pass keeps the tier flags, the high score and the unlock counts. -/
theorem collisionPass_tiers (env : Env) (m : Int × Int) (now : Int) (s : GameState)
    (t : Tier) :
    (collisionPass env m now s).tiers = s.tiers ∧
    unlockCount t (collisionPass env m now s) = unlockCount t s := by
  unfold collisionPass
  split_ifs
  · have h1 := whiteCollision_tiers env m now (s, false) t
    have h2 := blueCollision_tiers env m now (whiteCollision env m now (s, false)) t
    have h3 := turboCollision_tiers env m now
      (blueCollision env m now (whiteCollision env m now (s, false))) t
    have h4 := monsterCollision_tiers env m now
      (turboCollision env m now
        (blueCollision env m now (whiteCollision env m now (s, false)))) t
    have h5 := missBlock_tiers (collisionBlocks env m now s) t
    unfold collisionBlocks at h5 ⊢
    constructor
    · show (missBlock _).tiers = s.tiers
      rw [h5.1, h4.1, h3.1, h2.1, h1.1]
    · show unlockCount t (missBlock _) = unlockCount t s
      rw [h5.2, h4.2, h3.2, h2.2, h1.2]
  · exact ⟨rfl, rfl⟩

/-- The effect of the two unlock tests. -/
theorem unlockTiers_spec (env : Env) (s : GameState) :
    (unlockTiers env s).streak = s.streak ∧
    (unlockTiers env s).missedShots = s.missedShots ∧
    (unlockTiers env s).score = s.score ∧
    (unlockTiers env s).highScore = s.highScore ∧
    (unlockTiers env s).scoreFile = s.scoreFile ∧
    (unlockTiers env s).windowOpen = s.windowOpen ∧
    (unlockTiers env s).turboBirdActive = (s.turboBirdActive || decide (s.streak ≥ 6)) ∧
    (unlockTiers env s).monsterActive = (s.monsterActive || decide (s.streak ≥ 8)) ∧
    unlockCount Tier.turbo (unlockTiers env s) = unlockCount Tier.turbo s +
      (if s.turboBirdActive = false ∧ s.streak ≥ 6 then 1 else 0) ∧
    unlockCount Tier.monster (unlockTiers env s) = unlockCount Tier.monster s +
      (if s.monsterActive = false ∧ s.streak ≥ 8 then 1 else 0) := by
  unfold unlockTiers
  by_cases h6 : s.streak ≥ 6 <;> by_cases h8 : s.streak ≥ 8 <;>
    cases ht : s.turboBirdActive <;> cases hm : s.monsterActive <;>
    simp [h6, h8, ht, hm, unlockCount, List.count_append]



/-- The two ways a frame ends: at the game-over `return`, or after the unlocks and updates. -/
theorem frame_eq_some (env : Env) (inp : FrameInput) (s : GameState) (fl : Flow)
    (h : frame env inp s = some fl) :
    ∃ sg, (pollEvents inp.now s inp.events).shotgun.updateAnimation inp.now = some sg ∧
      ((afterCollision env inp s sg).missedShots ≥ 10 ∧
          fl = .ret { afterCollision env inp s sg with windowOpen := false } ∨
        (¬ (afterCollision env inp s sg).missedShots ≥ 10 ∧
          ∃ s', updateBirds env inp.now (unlockTiers env (afterCollision env inp s sg))
              = some s' ∧ fl = .next s')) := by
  simp only [frame, Option.bind_eq_some] at h
  obtain ⟨sg, hsg, hrest⟩ := h
  refine ⟨sg, hsg, ?_⟩
  unfold afterCollision
  split_ifs at hrest with hg
  · left
    simp only [Option.some.injEq] at hrest
    exact ⟨hg, hrest.symm⟩
  · right
    simp only [Option.map_eq_some'] at hrest
    obtain ⟨s', hs', hfl⟩ := hrest
    exact ⟨hg, s', hs', hfl.symm⟩

/-- Up to its collision pass a frame keeps the tier flags, the high score and the unlock counts. -/
theorem afterCollision_tiers (env : Env) (inp : FrameInput) (s : GameState)
    (sg : PistolSprite) (t : Tier) :
    (afterCollision env inp s sg).turboBirdActive = s.turboBirdActive ∧
    (afterCollision env inp s sg).monsterActive = s.monsterActive ∧
    (afterCollision env inp s sg).highScore = s.highScore ∧
    (afterCollision env inp s sg).scoreFile = s.scoreFile ∧
    unlockCount t (afterCollision env inp s sg) = unlockCount t s := by
  unfold afterCollision
  obtain ⟨h1, h2⟩ := collisionPass_tiers env
    (aimPoint { pollEvents inp.now s inp.events with shotgun := sg } inp) inp.now
    { pollEvents inp.now s inp.events with shotgun := sg } t
  have hp := pollEvents_progress inp.now inp.events s
  simp only [GameState.tiers, Prod.mk.injEq] at h1
  simp only [GameState.progress, Progress.mk.injEq] at hp
  obtain ⟨a1, a2, a3, a4, _⟩ := h1
  obtain ⟨_, p2, p3, _, _, p6, p7, p8⟩ := hp
  refine ⟨by rw [a1]; exact p6, by rw [a2]; exact p7, by rw [a3]; exact p2,
    by rw [a4]; exact p3, ?_⟩
  rw [h2]
  simp only [unlockCount]
  rw [p8]

/-- The loop on no input. -/
theorem runLoop_nil (env : Env) (s : GameState) :
    runLoop env [] s = if !s.windowOpen then some (.loopExit s) else some (.running s) := by
  rw [runLoop]

/-- The loop on a first input. -/
theorem runLoop_cons (env : Env) (inp : FrameInput) (rest : List FrameInput) (s : GameState) :
    runLoop env (inp :: rest) s =
      if !s.windowOpen then some (.loopExit s)
      else
        match frame env inp s with
        | none => none
        | some (.ret s') => some (.returned s')
        | some (.next s') => runLoop env rest s' := by
  rw [runLoop]

/-- On reaching the loop no tier is active, no miss is on record and nothing has been respawned. -/
theorem init_unlockedOnce (env : Env) (a : Entry) (s0 : GameState)
    (h : GameWindow.init env a = some s0) :
    unlockedOnce s0 ∧ s0.turboBirdActive = false ∧ s0.monsterActive = false ∧
      s0.missedShots = 0 ∧ s0.respawnLog = [] := by
  simp only [GameWindow.init, Option.map_eq_some'] at h
  obtain ⟨sg, _, hs⟩ := h
  subst hs
  simp [unlockedOnce, unlockCount]

/-! ### The animation of a bird -/

/-- C8: a call of `startShooting` at `t1` fires (one more `play()` of the fire sound) if and
only if the cooldown clock, restarted at the previous successful fire, shows at least
`shootCooldown`; a call that fires sets `isShooting`, resets `currentFrame` to 0 and
restarts both clocks, and a call that does not fire changes nothing. Hence two calls less
than the cooldown apart never both fire, after a fire at `t1` a call at `t2` with
`t2 - t1 < shootCooldown` changes nothing, and a call at `t2` with
`t2 - t1 ≥ shootCooldown` fires again. The animation update in between touches neither the
cooldown clock nor the cooldown. -/
theorem startShooting_cooldown_gate (p : PistolSprite) (t1 t2 : Int) :
    ((p.startShooting t1).fireSound = p.fireSound + 1 ↔
      p.cooldownClock.getElapsedTime t1 ≥ p.shootCooldown) ∧
    (p.cooldownClock.getElapsedTime t1 ≥ p.shootCooldown →
      p.startShooting t1 =
        { p with
          isShooting := true
          currentFrame := 0
          animationClock := ⟨t1⟩
          cooldownClock := ⟨t1⟩
          fireSound := p.fireSound + 1
          reloadSound := p.reloadSound + 1 }) ∧
    (¬ p.cooldownClock.getElapsedTime t1 ≥ p.shootCooldown → p.startShooting t1 = p) ∧
    (t2 - t1 < p.shootCooldown →
      ¬ ((p.startShooting t1).fireSound = p.fireSound + 1 ∧
        ((p.startShooting t1).startShooting t2).fireSound
          = (p.startShooting t1).fireSound + 1)) ∧
    (p.cooldownClock.getElapsedTime t1 ≥ p.shootCooldown → t2 - t1 < p.shootCooldown →
      (p.startShooting t1).startShooting t2 = p.startShooting t1) ∧
    (p.cooldownClock.getElapsedTime t1 ≥ p.shootCooldown → t2 - t1 ≥ p.shootCooldown →
      ((p.startShooting t1).startShooting t2).fireSound = p.fireSound + 2 ∧
      ((p.startShooting t1).startShooting t2).isShooting = true ∧
      ((p.startShooting t1).startShooting t2).currentFrame = 0 ∧
      ((p.startShooting t1).startShooting t2).cooldownClock = ⟨t2⟩) ∧
    (∀ (now : Int) (q : PistolSprite), p.updateAnimation now = some q →
      q.cooldownClock = p.cooldownClock ∧ q.shootCooldown = p.shootCooldown ∧
      q.fireSound = p.fireSound) := by
  have hyes : p.cooldownClock.getElapsedTime t1 ≥ p.shootCooldown →
      p.startShooting t1 =
        { p with
          isShooting := true
          currentFrame := 0
          animationClock := ⟨t1⟩
          cooldownClock := ⟨t1⟩
          fireSound := p.fireSound + 1
          reloadSound := p.reloadSound + 1 } := by
    intro h
    simp [PistolSprite.startShooting, h, Clock.restart]
  have hno : ¬ p.cooldownClock.getElapsedTime t1 ≥ p.shootCooldown →
      p.startShooting t1 = p := by
    intro h
    simp [PistolSprite.startShooting, h]
  refine ⟨?_, hyes, hno, ?_, ?_, ?_, ?_⟩
  · constructor
    · intro h
      by_contra hc
      rw [hno hc] at h
      omega
    · intro h
      rw [hyes h]
  · rintro h12 ⟨h1, h2⟩
    by_cases hc : p.cooldownClock.getElapsedTime t1 ≥ p.shootCooldown
    · rw [hyes hc] at h2
      simp [PistolSprite.startShooting, Clock.getElapsedTime] at h2
      split_ifs at h2 with h3
      · omega
      · simp at h2
    · rw [hno hc] at h1
      omega
  · intro hc h12
    rw [hyes hc]
    simp [PistolSprite.startShooting, Clock.getElapsedTime]
    omega
  · intro hc h12
    rw [hyes hc]
    simp [PistolSprite.startShooting, Clock.getElapsedTime, Clock.restart, h12]
  · intro now q hq
    unfold PistolSprite.updateAnimation at hq
    split_ifs at hq <;> simp only [Option.some.injEq] at hq <;> subst hq <;>
      exact ⟨rfl, rfl, rfl⟩

/-- C8, witness: the shotgun of `GameWindow`, constructed at instant 0, is fired at 1 s;
a call at 1.5 s changes nothing. -/
theorem startShooting_cooldown_gate_witness :
    (demoShotgun.startShooting 1000000).fireSound = demoShotgun.fireSound + 1 ∧
    (demoShotgun.startShooting 1000000).startShooting 1500000
      = demoShotgun.startShooting 1000000 :=
  have h := startShooting_cooldown_gate demoShotgun 1000000 1500000
  ⟨h.1.2 (by decide), h.2.2.2.2.1 (by decide) (by decide)⟩

/-! ### C9: the frame index of a bird -/

/-- C10, the code at the failing input: in a window 900 wide, a sprite 100 wide respawned
right to left by `Movement::randomizeStart` or `SinMovement::randomizeStart` is placed with
its origin at `x = 950` and mirrored, so that its bounding box starts at `x = 850`, inside
the visible range `[0, 900]`: the visible point `(860, 10)` lies in the box. -/
theorem respawn_right_overlaps_window :
    demoRespawn.1.goingRight = false ∧
    demoRespawn.2.1.posX = 950 ∧ demoRespawn.2.1.scaleX = -(1 / 2) ∧
    demoRespawn.2.1.getGlobalBounds.left = 850 ∧
    demoRespawn.2.1.getGlobalBounds.width = 100 ∧
    demoRespawn.2.1.getGlobalBounds.contains 860 10 = true ∧
    demoSinRespawn.1.goingRight = false ∧
    demoSinRespawn.2.1.getGlobalBounds.left = 850 ∧
    demoSinRespawn.2.1.getGlobalBounds.width = 100 ∧
    demoSinRespawn.2.1.getGlobalBounds.contains 860 10 = true := by
  decide!

/-! ### C11: the aim angle -/

/-- C12, the code at the failing input: with amplitude 7 and frequency 10, from the respawn
height 50, one call of `SinMovement::update` with `deltaTime = 0.1` leaves the sprite
`7 sin(1.0)` from the respawn height, but two calls with `deltaTime = 0.05` each, which
accumulate the same `elapsedTime = 0.1`, leave it `7 sin(0.5) + 7 sin(1.0)` from it: every
call adds its sine term to the current height. The two heights differ by `7 sin(0.5)`,
which is not zero for the sine of the C library. -/
theorem wavy_offset_depends_on_frame_split (env : Env) :
    demoWavySprite.posY = 50 ∧
    (demoOneStep env).1.elapsedTime = 1 / 10 ∧
    (demoOneStep env).2.1.posY - 50 = 7 * env.sinF 1 ∧
    (demoTwoSteps env).1.elapsedTime = 1 / 10 ∧
    (demoTwoSteps env).2.1.posY - 50 = 7 * env.sinF (1 / 2) + 7 * env.sinF 1 ∧
    (demoTwoSteps env).2.1.posY - (demoOneStep env).2.1.posY = 7 * env.sinF (1 / 2) := by
  have h1 : demoWavy.update env ⟨0, 0⟩ demoWavySprite (900, 800) (1 / 20) =
      ({ demoWavy with elapsedTime := 1 / 20 },
        demoWavySprite.setPosition (-85) (50 + 7 * env.sinF (1 / 2)), ⟨0, 0⟩) := by
    simp [SinMovement.update, demoWavy, demoWavySprite, demoBird, Sprite.setPosition,
      Sprite.getGlobalBounds]
    norm_num
  have h0 : demoOneStep env =
      ({ demoWavy with elapsedTime := 1 / 10 },
        demoWavySprite.setPosition (-70) (50 + 7 * env.sinF 1), ⟨0, 0⟩) := by
    simp [demoOneStep, SinMovement.update, demoWavy, demoWavySprite, demoBird,
      Sprite.setPosition, Sprite.getGlobalBounds]
    norm_num
  have h2 : demoTwoSteps env =
      ({ demoWavy with elapsedTime := 1 / 10 },
        demoWavySprite.setPosition (-70) (50 + 7 * env.sinF (1 / 2) + 7 * env.sinF 1),
        ⟨0, 0⟩) := by
    unfold demoTwoSteps
    rw [h1]
    simp [SinMovement.update, demoWavy, demoWavySprite, demoBird, Sprite.setPosition,
      Sprite.getGlobalBounds]
    norm_num
  rw [h0, h2]
  refine ⟨rfl, rfl, ?_, rfl, ?_, ?_⟩
  · simp [Sprite.setPosition]
  · simp [Sprite.setPosition]
    ring
  · simp [Sprite.setPosition]

/-! ### C13: the point values -/

/-- C13, the code at the failing input: in `demoState` a shot that hits only the white,
only the blue or only the turbo bird raises the score by the advertised 1, 2 or 4 points,
but a shot at `(860, 10)`, which hits only the monster, raises it by 10, whereas the
guidelines advertise 7 points for the monster. -/
theorem monster_hit_scores_ten :
    (collisionPass demoEnv (110, 110) 2000000 demoState).respawnLog = [Respawn.hit Tier.white] ∧
    (collisionPass demoEnv (110, 110) 2000000 demoState).score
      = demoState.score + advertisedPoints Tier.white ∧
    (collisionPass demoEnv (210, 160) 2000000 demoState).respawnLog = [Respawn.hit Tier.blue] ∧
    (collisionPass demoEnv (210, 160) 2000000 demoState).score
      = demoState.score + advertisedPoints Tier.blue ∧
    (collisionPass demoEnv (860, 70) 2000000 demoState).respawnLog = [Respawn.hit Tier.turbo] ∧
    (collisionPass demoEnv (860, 70) 2000000 demoState).score
      = demoState.score + advertisedPoints Tier.turbo ∧
    (collisionPass demoEnv (860, 10) 2000000 demoState).respawnLog
      = [Respawn.hit Tier.monster] ∧
    (collisionPass demoEnv (860, 10) 2000000 demoState).score = demoState.score + 10 ∧
    advertisedPoints Tier.monster = 7 := by
  decide!

/-! ### C14: shooting while the animation runs -/

/-- One call keeps the cooldown; it either keeps the cooldown clock and does not set
`isShooting`, or it is a `startShooting` that restarts the cooldown clock at its instant. -/
theorem PistolSprite.call_cooldown (p q : PistolSprite) (c : PistolCall)
    (h : p.call c = some q) :
    q.shootCooldown = p.shootCooldown ∧
    ((q.cooldownClock = p.cooldownClock ∧ (q.isShooting = true → p.isShooting = true)) ∨
      ∃ tf, c = .startShooting tf ∧ q.cooldownClock = ⟨tf⟩) := by
  cases c with
  | startShooting now =>
    simp only [PistolSprite.call, Option.some.injEq] at h
    subst h
    unfold PistolSprite.startShooting
    split_ifs
    · exact ⟨rfl, Or.inr ⟨now, rfl, rfl⟩⟩
    · exact ⟨rfl, Or.inl ⟨rfl, id⟩⟩
  | updateAnimation now =>
    simp only [PistolSprite.call] at h
    unfold PistolSprite.updateAnimation at h
    split_ifs at h <;> simp only [Option.some.injEq] at h <;> subst h
    · exact ⟨rfl, Or.inl ⟨rfl, fun h => by simp at h⟩⟩
    · exact ⟨rfl, Or.inl ⟨rfl, fun _ => by assumption⟩⟩
    · exact ⟨rfl, Or.inl ⟨rfl, id⟩⟩
    · exact ⟨rfl, Or.inl ⟨rfl, id⟩⟩

/-- A sequence of calls keeps the cooldown; it either keeps the cooldown clock and does not
set `isShooting`, or the cooldown clock was restarted by one of its `startShooting` calls. -/
theorem PistolSprite.calls_cooldown (cs : List PistolCall) :
    ∀ p q : PistolSprite, p.calls cs = some q →
      q.shootCooldown = p.shootCooldown ∧
      ((q.cooldownClock = p.cooldownClock ∧ (q.isShooting = true → p.isShooting = true)) ∨
        ∃ tf, PistolCall.startShooting tf ∈ cs ∧ q.cooldownClock = ⟨tf⟩) := by
  induction cs with
  | nil =>
    intro p q h
    simp only [PistolSprite.calls, Option.some.injEq] at h
    subst h
    exact ⟨rfl, Or.inl ⟨rfl, id⟩⟩
  | cons c cs ih =>
    intro p q h
    simp only [PistolSprite.calls, Option.bind_eq_some] at h
    obtain ⟨r, hr, hq⟩ := h
    obtain ⟨c1, c2⟩ := PistolSprite.call_cooldown p r c hr
    obtain ⟨i1, i2⟩ := ih r q hq
    refine ⟨by rw [i1, c1], ?_⟩
    rcases i2 with ⟨e, f⟩ | ⟨tf, hm, e⟩
    · rcases c2 with ⟨e', f'⟩ | ⟨tf, hc, e'⟩
      · exact Or.inl ⟨by rw [e, e'], fun x => f' (f x)⟩
      · exact Or.inr ⟨tf, by rw [hc]; exact List.mem_cons_self _ _, by rw [e, e']⟩
    · exact Or.inr ⟨tf, List.mem_cons_of_mem _ hm, e⟩

/-- The members a constructed shotgun starts with. -/
theorem PistolSprite.new_members (texX texY : Nat) (columns rows D t0 : Int) (p : PistolSprite)
    (h : PistolSprite.new texX texY columns rows D t0 = some p) :
    p.isShooting = false ∧ p.shootCooldown = 740000 ∧ p.cooldownClock = ⟨t0⟩ ∧
      p.currentFrame = 0 ∧ p.totalFrames = columns * rows := by
  unfold PistolSprite.new at h
  split_ifs at h
  simp only [Option.some.injEq] at h
  subst h
  exact ⟨rfl, rfl, rfl, rfl, rfl⟩

/-- C14, amended: for every interleaving of `startShooting` and `updateAnimation` calls on
a constructed shotgun that leaves `isShooting` true, the cooldown clock was restarted by
one of the `startShooting` calls (the last one that fired), and a further call of
`startShooting` at `t` is gated by the cooldown alone: made less than 0.74 s after that
shot it changes nothing; made 0.74 s or more after it, it starts a new shot (`currentFrame`
back to 0, both clocks restarted) although `isShooting` is still true. -/
theorem startShooting_while_shooting (texX texY : Nat) (columns rows D t0 : Int)
    (p0 p : PistolSprite) (cs : List PistolCall) (t : Int)
    (hnew : PistolSprite.new texX texY columns rows D t0 = some p0)
    (hrun : p0.calls cs = some p) (hs : p.isShooting = true) :
    (∃ tf, PistolCall.startShooting tf ∈ cs ∧ p.cooldownClock = ⟨tf⟩) ∧
    p.shootCooldown = 740000 ∧
    (t - p.cooldownClock.start < 740000 → p.startShooting t = p) ∧
    (t - p.cooldownClock.start ≥ 740000 →
      (p.startShooting t).isShooting = true ∧ (p.startShooting t).currentFrame = 0 ∧
      (p.startShooting t).animationClock = ⟨t⟩ ∧ (p.startShooting t).cooldownClock = ⟨t⟩ ∧
      (p.startShooting t).fireSound = p.fireSound + 1) := by
  obtain ⟨n1, n2, _, _, _⟩ := PistolSprite.new_members texX texY columns rows D t0 p0 hnew
  obtain ⟨c1, c2⟩ := PistolSprite.calls_cooldown cs p0 p hrun
  have hcd : p.shootCooldown = 740000 := by rw [c1, n2]
  refine ⟨?_, hcd, ?_, ?_⟩
  · rcases c2 with ⟨_, f⟩ | h
    · rw [n1] at f
      exact absurd (f hs) (by simp)
    · exact h
  · intro h
    have : ¬ p.cooldownClock.getElapsedTime t ≥ p.shootCooldown := by
      rw [hcd]; simp only [Clock.getElapsedTime]; omega
    simp [PistolSprite.startShooting, this]
  · intro h
    have : p.cooldownClock.getElapsedTime t ≥ p.shootCooldown := by
      rw [hcd]; simp only [Clock.getElapsedTime]; omega
    simp [PistolSprite.startShooting, this, Clock.restart]

/-- C14, witness: a shot at 1 s and an animation update at 1.2 s leave the animation in
progress; a call of `startShooting` at 1.5 s changes nothing. -/
theorem startShooting_while_shooting_witness :
    demoShooting.isShooting = true ∧ demoShooting.startShooting 1500000 = demoShooting :=
  ⟨by decide!,
    (startShooting_while_shooting 900 400 3 2 100000 0 demoNewShotgun demoShooting
      demoShotThenUpdate 1500000 (by decide!) (by decide!) (by decide!)).2.2.1 (by decide!)⟩

/-- C14, counterexample: after a shot at 1 s and one animation update at 1.2 s the
animation is in progress at frame 1; a call of `startShooting` at 1.8 s, made while
`isShooting` is true, starts a new shot: `currentFrame` is back to 0 and the animation
clock and the cooldown clock are restarted at 1.8 s. -/
theorem shot_restarted_while_shooting :
    (demoNewShotgun.calls [.startShooting 1000000, .updateAnimation 1200000]).map
        (fun p => (p.isShooting, p.currentFrame, p.animationClock, p.cooldownClock, p.fireSound))
      = some (true, 1, ⟨1200000⟩, ⟨1000000⟩, 1) ∧
    (demoNewShotgun.calls
        [.startShooting 1000000, .updateAnimation 1200000, .startShooting 1800000]).map
        (fun p => (p.isShooting, p.currentFrame, p.animationClock, p.cooldownClock, p.fireSound))
      = some (true, 0, ⟨1800000⟩, ⟨1800000⟩, 2) := by
  decide!

/-! ### C15, C16: the frame index and the sub-rectangle -/

/-- The hit points of two logs in a row add up. -/
theorem hitPoints_append (l l' : List Respawn) :
    hitPoints (l ++ l') = hitPoints l + hitPoints l' := by
  induction l with
  | nil => simp [hitPoints]
  | cons r l ih =>
    cases r with
    | hit u =>
      show creditedPoints u + hitPoints (l ++ l') = creditedPoints u + hitPoints l + _
      rw [ih]
      ring
    | unlock u =>
      show hitPoints (l ++ l') = hitPoints l + _
      rw [ih]

/-- The white block keeps the balance and the misses. -/
theorem whiteCollision_balance (env : Env) (m : Int × Int) (now : Int) (p : GameState × Bool) :
    balance (whiteCollision env m now p).1 = balance p.1 ∧
    (whiteCollision env m now p).1.missedShots = p.1.missedShots := by
  unfold whiteCollision
  split_ifs
  · refine ⟨?_, rfl⟩
    simp only [balance, hitPoints_append, hitPoints, creditedPoints]
    ring
  · exact ⟨rfl, rfl⟩

/-- The blue block keeps the balance and the misses. -/
theorem blueCollision_balance (env : Env) (m : Int × Int) (now : Int) (p : GameState × Bool) :
    balance (blueCollision env m now p).1 = balance p.1 ∧
    (blueCollision env m now p).1.missedShots = p.1.missedShots := by
  unfold blueCollision
  split_ifs
  · refine ⟨?_, rfl⟩
    simp only [balance, hitPoints_append, hitPoints, creditedPoints]
    ring
  · exact ⟨rfl, rfl⟩

/-- The turbo block keeps the balance and the misses. -/
theorem turboCollision_balance (env : Env) (m : Int × Int) (now : Int) (p : GameState × Bool) :
    balance (turboCollision env m now p).1 = balance p.1 ∧
    (turboCollision env m now p).1.missedShots = p.1.missedShots := by
  unfold turboCollision
  split_ifs
  · refine ⟨?_, rfl⟩
    simp only [balance, hitPoints_append, hitPoints, creditedPoints]
    ring
  · exact ⟨rfl, rfl⟩

/-- The monster block keeps the balance and the misses. -/
theorem monsterCollision_balance (env : Env) (m : Int × Int) (now : Int)
    (p : GameState × Bool) :
    balance (monsterCollision env m now p).1 = balance p.1 ∧
    (monsterCollision env m now p).1.missedShots = p.1.missedShots := by
  unfold monsterCollision
  split_ifs
  · refine ⟨?_, rfl⟩
    simp only [balance, hitPoints_append, hitPoints, creditedPoints]
    ring
  · exact ⟨rfl, rfl⟩

/-- The miss block keeps the balance and adds at most one miss. -/
theorem missBlock_balance (p : GameState × Bool) :
    balance (missBlock p) = balance p.1 ∧
    p.1.missedShots ≤ (missBlock p).missedShots ∧
    (missBlock p).missedShots ≤ p.1.missedShots + 1 := by
  unfold missBlock
  split_ifs with h1
  · refine ⟨?_, by simp, by simp⟩
    simp only [balance, penalties]
    split_ifs <;> omega
  · exact ⟨rfl, le_refl _, by omega⟩

/-- The collision pass keeps the balance and adds at most one miss. -/
theorem collisionPass_balance (env : Env) (m : Int × Int) (now : Int) (s : GameState) :
    balance (collisionPass env m now s) = balance s ∧
    s.missedShots ≤ (collisionPass env m now s).missedShots ∧
    (collisionPass env m now s).missedShots ≤ s.missedShots + 1 := by
  unfold collisionPass
  split_ifs
  · have h1 := whiteCollision_balance env m now (s, false)
    have h2 := blueCollision_balance env m now (whiteCollision env m now (s, false))
    have h3 := turboCollision_balance env m now
      (blueCollision env m now (whiteCollision env m now (s, false)))
    have h4 := monsterCollision_balance env m now
      (turboCollision env m now
        (blueCollision env m now (whiteCollision env m now (s, false))))
    have h5 := missBlock_balance (collisionBlocks env m now s)
    unfold collisionBlocks at h5 ⊢
    have hb : balance (missBlock (monsterCollision env m now
        (turboCollision env m now
          (blueCollision env m now (whiteCollision env m now (s, false)))))) = balance s := by
      rw [h5.1, h4.1, h3.1, h2.1, h1.1]
    have hm : (monsterCollision env m now
        (turboCollision env m now
          (blueCollision env m now (whiteCollision env m now (s, false))))).1.missedShots
        = s.missedShots := by
      rw [h4.2, h3.2, h2.2, h1.2]
    rw [hm] at h5
    exact ⟨hb, h5.2.1, h5.2.2⟩
  · exact ⟨rfl, le_refl _, by omega⟩



/-- An unlock credits no hit points. -/
theorem unlockTiers_hitPoints (env : Env) (s : GameState) :
    hitPoints (unlockTiers env s).respawnLog = hitPoints s.respawnLog := by
  unfold unlockTiers
  by_cases h6 : s.streak ≥ 6 <;> by_cases h8 : s.streak ≥ 8 <;>
    cases ht : s.turboBirdActive <;> cases hm : s.monsterActive <;>
    simp [h6, h8, ht, hm, hitPoints_append, hitPoints]

/-- Replacing the shotgun changes neither the balance nor the misses. -/
theorem setShotgun_balance (P : GameState) (sg : PistolSprite) :
    balance { P with shotgun := sg } = balance P ∧
    ({ P with shotgun := sg } : GameState).missedShots = P.missedShots := ⟨rfl, rfl⟩

/-- Up to its collision pass a frame keeps the balance and adds at most one miss. -/
theorem afterCollision_balance (env : Env) (inp : FrameInput) (s : GameState)
    (sg : PistolSprite) :
    balance (afterCollision env inp s sg) = balance s ∧
    s.missedShots ≤ (afterCollision env inp s sg).missedShots ∧
    (afterCollision env inp s sg).missedShots ≤ s.missedShots + 1 := by
  unfold afterCollision
  have hp := pollEvents_progress inp.now inp.events s
  generalize pollEvents inp.now s inp.events = P at hp ⊢
  simp only [GameState.progress, Progress.mk.injEq] at hp
  obtain ⟨p1, _, _, _, p5, _, _, p8⟩ := hp
  have hc := collisionPass_balance env
    (aimPoint { P with shotgun := sg } inp) inp.now { P with shotgun := sg }
  rw [(setShotgun_balance P sg).1, (setShotgun_balance P sg).2] at hc
  have hb : balance P = balance s := by
    unfold balance
    rw [p1, p5, p8]
  obtain ⟨h1, h2, h3⟩ := hc
  exact ⟨h1.trans hb, p5.symm.le.trans h2, h3.trans (by rw [p5])⟩

/-- One frame keeps the balance, adds at most one miss, ends at `next` with at most 9 misses
and at `ret` with at least 10, and sets the tier flags from the streak at its end. -/
theorem frame_round (env : Env) (inp : FrameInput) (s : GameState) (fl : Flow)
    (h : frame env inp s = some fl) :
    balance fl.state = balance s ∧
    s.missedShots ≤ fl.state.missedShots ∧ fl.state.missedShots ≤ s.missedShots + 1 ∧
    (∀ s', fl = .next s' →
      s'.missedShots ≤ 9 ∧
      s'.turboBirdActive = (s.turboBirdActive || decide (s'.streak ≥ 6)) ∧
      s'.monsterActive = (s.monsterActive || decide (s'.streak ≥ 8))) ∧
    (∀ s', fl = .ret s' →
      10 ≤ s'.missedShots ∧ s'.turboBirdActive = s.turboBirdActive ∧
      s'.monsterActive = s.monsterActive) := by
  obtain ⟨sg, _, hc⟩ := frame_eq_some env inp s fl h
  obtain ⟨c1, c2, _, _, _⟩ := afterCollision_tiers env inp s sg Tier.turbo
  obtain ⟨b1, b2, b3⟩ := afterCollision_balance env inp s sg
  rcases hc with ⟨hg, hfl⟩ | ⟨hg, s', hs', hfl⟩
  · subst hfl
    refine ⟨b1, b2, b3, fun s' h => by simp at h, ?_⟩
    intro s' hs'
    simp only [Flow.ret.injEq] at hs'
    subst hs'
    exact ⟨hg, c1, c2⟩
  · subst hfl
    obtain ⟨hp, _⟩ := updateBirds_progress env inp.now _ s' hs'
    obtain ⟨u1, u2, u3, _, _, _, u7, u8, _, _⟩ :=
      unlockTiers_spec env (afterCollision env inp s sg)
    have uh := unlockTiers_hitPoints env (afterCollision env inp s sg)
    simp only [GameState.progress, Progress.mk.injEq] at hp
    obtain ⟨p1, _, _, p4, p5, p6, p7, p8⟩ := hp
    have hb : balance s' = balance s := by
      rw [← b1]
      simp only [balance, p1, p5, p8, uh, u2, u3]
    have hm : s'.missedShots = (afterCollision env inp s sg).missedShots := by rw [p5, u2]
    refine ⟨hb, ?_, ?_, ?_, fun s'' h => by simp at h⟩
    · show s.missedShots ≤ s'.missedShots
      rw [hm]; exact b2
    · show s'.missedShots ≤ s.missedShots + 1
      rw [hm]; exact b3
    · intro s'' hs''
      simp only [Flow.next.injEq] at hs''
      subst hs''
      refine ⟨by rw [hm]; omega, ?_, ?_⟩
      · rw [p6, u7, c1, p4, u1]
      · rw [p7, u8, c2, p4, u1]

/-- Any run of the loop keeps the round invariant; it leaves through the `return` with exactly
10 misses. -/
theorem runLoop_round (env : Env) (entryScore : Int) (inps : List FrameInput) :
    ∀ (s : GameState) (o : Outcome), roundInvariant entryScore s →
      runLoop env inps s = some o →
      balance o.state = entryScore ∧ 0 ≤ o.state.missedShots ∧
      (o.state.monsterActive = true → o.state.turboBirdActive = true) ∧
      (∀ s', o = .running s' ∨ o = .loopExit s' → s'.missedShots ≤ 9) ∧
      (∀ s', o = .returned s' → s'.missedShots = 10) := by
  induction inps with
  | nil =>
    intro s o hi h
    obtain ⟨i1, i2, i3, i4⟩ := hi
    rw [runLoop_nil] at h
    split_ifs at h <;> simp only [Option.some.injEq] at h <;> subst h
    · refine ⟨i1, i2, i4, ?_, fun s' h => by simp at h⟩
      rintro s' (h | h) <;> simp at h
      subst h; exact i3
    · refine ⟨i1, i2, i4, ?_, fun s' h => by simp at h⟩
      rintro s' (h | h) <;> simp at h
      subst h; exact i3
  | cons inp rest ih =>
    intro s o hi h
    obtain ⟨i1, i2, i3, i4⟩ := hi
    rw [runLoop_cons] at h
    split_ifs at h
    · simp only [Option.some.injEq] at h
      subst h
      refine ⟨i1, i2, i4, ?_, fun s' h => by simp at h⟩
      rintro s' (h | h) <;> simp at h
      subst h; exact i3
    · cases hf : frame env inp s with
      | none => rw [hf] at h; simp at h
      | some fl =>
        obtain ⟨f1, f2, f3, f4, f5⟩ := frame_round env inp s fl hf
        rw [hf] at h
        cases fl with
        | ret s' =>
          simp only [Option.some.injEq] at h
          subst h
          obtain ⟨g1, g2, g3⟩ := f5 s' rfl
          simp only [Flow.state] at f1 f2 f3
          refine ⟨by rw [← i1]; exact f1, by simp only [Outcome.state]; omega, ?_,
            fun s'' h => by rcases h with h | h <;> simp at h, ?_⟩
          · simp only [Outcome.state, g2, g3]; exact i4
          · intro s'' hs''
            simp only [Outcome.returned.injEq] at hs''
            subst hs''
            omega
        | next s' =>
          simp only at h
          obtain ⟨g1, g2, g3⟩ := f4 s' rfl
          simp only [Flow.state] at f1 f2 f3
          refine ih s' o ⟨by rw [← i1]; exact f1, by omega, g1, ?_⟩ h
          intro hm
          rw [g3] at hm
          rw [g2]
          simp only [Bool.or_eq_true, decide_eq_true_eq] at hm ⊢
          rcases hm with hm | hm
          · exact Or.inl (i4 hm)
          · exact Or.inr (by omega)

/-- The round invariant holds on reaching the loop. -/
theorem init_round (env : Env) (a : Entry) (s0 : GameState)
    (h : GameWindow.init env a = some s0) : roundInvariant a.score s0 := by
  simp only [GameWindow.init, Option.map_eq_some'] at h
  obtain ⟨sg, _, hs⟩ := h
  subst hs
  simp [roundInvariant, balance, hitPoints, penalties]

/-! ### The trigger -/

theorem PistolSprite.updateAnimation_cooldown (p q : PistolSprite) (now : Int)
    (h : p.updateAnimation now = some q) :
    q.shootCooldown = p.shootCooldown ∧ q.cooldownClock = p.cooldownClock ∧
      q.fireSound = p.fireSound := by
  unfold PistolSprite.updateAnimation at h
  split_ifs at h <;> simp only [Option.some.injEq] at h <;> subst h <;>
    exact ⟨rfl, rfl, rfl⟩

/-- A left click under `clicksFire`: when the click cooldown has elapsed the pass is armed
and the shotgun fires; otherwise nothing changes. -/
theorem handleEvent_leftClick_fires (now : Int) (s : GameState) (hk : clicksFire s) :
    (s.clickCooldownClock.getElapsedTime now ≥ clickCooldown →
      (handleEvent now s .leftClick).isCollisionEnabled = true ∧
      (handleEvent now s .leftClick).shotgun.fireSound = s.shotgun.fireSound + 1 ∧
      (handleEvent now s .leftClick).shotgun.isShooting = true ∧
      (handleEvent now s .leftClick).shotgun.cooldownClock = ⟨now⟩ ∧
      (handleEvent now s .leftClick).clickCooldownClock = ⟨now⟩ ∧
      (handleEvent now s .leftClick).shotgun.shootCooldown = s.shotgun.shootCooldown) ∧
    (¬ s.clickCooldownClock.getElapsedTime now ≥ clickCooldown →
      handleEvent now s .leftClick = s) := by
  obtain ⟨k1, k2⟩ := hk
  constructor
  · intro h
    have hready : s.shotgun.cooldownClock.getElapsedTime now ≥ s.shotgun.shootCooldown := by
      rw [k1]
      simp only [Clock.getElapsedTime, clickCooldown] at h ⊢
      omega
    simp [handleEvent, h, PistolSprite.startShooting, hready, Clock.restart]
  · intro h
    simp only [handleEvent, if_neg h]

/-- Handling an event keeps `clicksFire`; it arms the pass only by firing a shot. -/
theorem handleEvent_clicksFire (now : Int) (s : GameState) (e : Event) (hk : clicksFire s) :
    clicksFire (handleEvent now s e) ∧
    s.shotgun.fireSound ≤ (handleEvent now s e).shotgun.fireSound ∧
    ((handleEvent now s e).isCollisionEnabled = true →
      s.isCollisionEnabled = true ∨
        s.shotgun.fireSound < (handleEvent now s e).shotgun.fireSound) := by
  cases e with
  | leftClick =>
    obtain ⟨h1, h2⟩ := handleEvent_leftClick_fires now s hk
    by_cases h : s.clickCooldownClock.getElapsedTime now ≥ clickCooldown
    · obtain ⟨a1, a2, _, a4, a5, a6⟩ := h1 h
      refine ⟨⟨by rw [a6]; exact hk.1, by rw [a4, a5]; simp⟩, by rw [a2]; omega,
        fun _ => Or.inr (by rw [a2]; omega)⟩
    · rw [h2 h]
      exact ⟨hk, le_refl _, Or.inl⟩
  | closed => exact ⟨hk, le_refl _, Or.inl⟩
  | escapePressed => exact ⟨hk, le_refl _, Or.inl⟩
  | tabPressed => exact ⟨hk, le_refl _, Or.inl⟩
  | other => exact ⟨hk, le_refl _, Or.inl⟩

/-- The event loop keeps `clicksFire`; it arms the pass only by firing a shot. -/
theorem pollEvents_clicksFire (now : Int) (es : List Event) :
    ∀ s : GameState, clicksFire s →
      clicksFire (pollEvents now s es) ∧
      s.shotgun.fireSound ≤ (pollEvents now s es).shotgun.fireSound ∧
      ((pollEvents now s es).isCollisionEnabled = true →
        s.isCollisionEnabled = true ∨
          s.shotgun.fireSound < (pollEvents now s es).shotgun.fireSound) := by
  induction es with
  | nil => intro s hk; exact ⟨hk, le_refl _, Or.inl⟩
  | cons e es ih =>
    intro s hk
    simp only [pollEvents]
    split_ifs
    · obtain ⟨h1, h2, h3⟩ := handleEvent_clicksFire now s e hk
      obtain ⟨i1, i2, i3⟩ := ih (handleEvent now s e) h1
      refine ⟨i1, le_trans h2 i2, fun ha => ?_⟩
      rcases i3 ha with h | h
      · rcases h3 h with h' | h'
        · exact Or.inl h'
        · exact Or.inr (lt_of_lt_of_le h' i2)
      · exact Or.inr (lt_of_le_of_lt h2 h)
    · exact ⟨hk, le_refl _, Or.inl⟩

/-- The white block leaves the click clock and the shotgun alone. -/
theorem whiteCollision_trigger (env : Env) (m : Int × Int) (now : Int) (p : GameState × Bool) :
    (whiteCollision env m now p).1.clickCooldownClock = p.1.clickCooldownClock ∧
    (whiteCollision env m now p).1.shotgun = p.1.shotgun := by
  unfold whiteCollision
  split_ifs <;> exact ⟨rfl, rfl⟩

/-- The blue block leaves the click clock and the shotgun alone. -/
theorem blueCollision_trigger (env : Env) (m : Int × Int) (now : Int) (p : GameState × Bool) :
    (blueCollision env m now p).1.clickCooldownClock = p.1.clickCooldownClock ∧
    (blueCollision env m now p).1.shotgun = p.1.shotgun := by
  unfold blueCollision
  split_ifs <;> exact ⟨rfl, rfl⟩

/-- The turbo block leaves the click clock and the shotgun alone. -/
theorem turboCollision_trigger (env : Env) (m : Int × Int) (now : Int) (p : GameState × Bool) :
    (turboCollision env m now p).1.clickCooldownClock = p.1.clickCooldownClock ∧
    (turboCollision env m now p).1.shotgun = p.1.shotgun := by
  unfold turboCollision
  split_ifs <;> exact ⟨rfl, rfl⟩

/-- The monster block leaves the click clock and the shotgun alone. -/
theorem monsterCollision_trigger (env : Env) (m : Int × Int) (now : Int)
    (p : GameState × Bool) :
    (monsterCollision env m now p).1.clickCooldownClock = p.1.clickCooldownClock ∧
    (monsterCollision env m now p).1.shotgun = p.1.shotgun := by
  unfold monsterCollision
  split_ifs <;> exact ⟨rfl, rfl⟩

/-- The miss block leaves the click clock and the shotgun alone. -/
theorem missBlock_trigger (p : GameState × Bool) :
    (missBlock p).clickCooldownClock = p.1.clickCooldownClock ∧
    (missBlock p).shotgun = p.1.shotgun := by
  unfold missBlock
  split_ifs <;> exact ⟨rfl, rfl⟩

/-- The collision pass leaves the click clock and the shotgun alone and ends disarmed
whenever it ran or the pass was not armed. -/
theorem collisionPass_trigger (env : Env) (m : Int × Int) (now : Int) (s : GameState) :
    (collisionPass env m now s).clickCooldownClock = s.clickCooldownClock ∧
    (collisionPass env m now s).shotgun = s.shotgun ∧
    (collisionPass env m now s).isCollisionEnabled = false := by
  unfold collisionPass
  split_ifs with ha
  · have h1 := whiteCollision_trigger env m now (s, false)
    have h2 := blueCollision_trigger env m now (whiteCollision env m now (s, false))
    have h3 := turboCollision_trigger env m now
      (blueCollision env m now (whiteCollision env m now (s, false)))
    have h4 := monsterCollision_trigger env m now
      (turboCollision env m now
        (blueCollision env m now (whiteCollision env m now (s, false))))
    have h5 := missBlock_trigger (collisionBlocks env m now s)
    unfold collisionBlocks at h5 ⊢
    refine ⟨?_, ?_, rfl⟩
    · show (missBlock _).clickCooldownClock = _
      rw [h5.1, h4.1, h3.1, h2.1, h1.1]
    · show (missBlock _).shotgun = _
      rw [h5.2, h4.2, h3.2, h2.2, h1.2]
  · exact ⟨rfl, rfl, by simpa using ha⟩

/-- The unlocks leave the trigger alone. -/
theorem unlockTiers_trigger (env : Env) (s : GameState) :
    (unlockTiers env s).trigger = s.trigger := by
  unfold unlockTiers
  by_cases h6 : s.streak ≥ 6 <;> by_cases h8 : s.streak ≥ 8 <;>
    cases ht : s.turboBirdActive <;> cases hm : s.monsterActive <;>
    simp [h6, h8, ht, hm, GameState.trigger]

/-- Updating the white and blue birds leaves the trigger alone. -/
theorem updateBasicBirds_trigger (env : Env) (now : Int) (s s' : GameState)
    (h : updateBasicBirds env now s = some s') : s'.trigger = s.trigger := by
  simp only [updateBasicBirds, Option.bind_eq_some] at h
  obtain ⟨w, _, b, _, hs⟩ := h
  simp only [Option.some.injEq] at hs
  subst hs
  rfl

/-- Updating the turbo bird leaves the trigger alone. -/
theorem updateTurbo_trigger (env : Env) (now : Int) (dt : ℚ) (s s' : GameState)
    (h : updateTurbo env now dt s = some s') : s'.trigger = s.trigger := by
  simp only [updateTurbo, Option.bind_eq_some] at h
  obtain ⟨u, hu, hs⟩ := h
  have hu' : u.trigger = s.trigger := by
    split_ifs at hu
    · simp only [Option.bind_eq_some] at hu
      obtain ⟨t, _, ht⟩ := hu
      simp only [Option.some.injEq] at ht
      subst ht
      rfl
    · simp only [Option.some.injEq] at hu
      subst hu
      rfl
  split_ifs at hs <;> simp only [Option.some.injEq] at hs <;> subst hs
  · exact hu'
  · exact hu'

/-- Updating the monster leaves the trigger alone. -/
theorem updateMonster_trigger (env : Env) (now : Int) (dt : ℚ) (s s' : GameState)
    (h : updateMonster env now dt s = some s') : s'.trigger = s.trigger := by
  simp only [updateMonster, Option.bind_eq_some] at h
  obtain ⟨u, hu, hs⟩ := h
  have hu' : u.trigger = s.trigger := by
    split_ifs at hu
    · simp only [Option.bind_eq_some] at hu
      obtain ⟨t, _, ht⟩ := hu
      simp only [Option.some.injEq] at ht
      subst ht
      rfl
    · simp only [Option.some.injEq] at hu
      subst hu
      rfl
  split_ifs at hs <;> simp only [Option.some.injEq] at hs <;> subst hs
  · exact hu'
  · exact hu'

/-- The updates of the targets leave the trigger alone. -/
theorem updateBirds_trigger (env : Env) (now : Int) (s s' : GameState)
    (h : updateBirds env now s = some s') : s'.trigger = s.trigger := by
  simp only [updateBirds, Option.bind_eq_some] at h
  obtain ⟨u, hu, v, hv, hs⟩ := h
  have h1 := updateBasicBirds_trigger env now _ u hu
  have h2 := updateTurbo_trigger env now _ u v hv
  have h3 := updateMonster_trigger env now _ v s' hs
  rw [h3, h2, h1]
  rfl

/-- Up to its collision pass a frame keeps `clicksFire`, and the pass leaves it disarmed. -/
theorem afterCollision_trigger (env : Env) (inp : FrameInput) (s : GameState)
    (sg : PistolSprite) (hk : clicksFire s)
    (hsg : (pollEvents inp.now s inp.events).shotgun.updateAnimation inp.now = some sg) :
    clicksFire (afterCollision env inp s sg) ∧
    (afterCollision env inp s sg).isCollisionEnabled = false := by
  unfold afterCollision
  obtain ⟨k1, k2⟩ := (pollEvents_clicksFire inp.now inp.events s hk).1
  obtain ⟨u1, u2, _⟩ := PistolSprite.updateAnimation_cooldown _ sg inp.now hsg
  generalize pollEvents inp.now s inp.events = P at k1 k2 u1 u2 ⊢
  obtain ⟨c1, c2, c3⟩ := collisionPass_trigger env
    (aimPoint { P with shotgun := sg } inp) inp.now { P with shotgun := sg }
  refine ⟨⟨?_, ?_⟩, c3⟩
  · rw [c2]
    show sg.shootCooldown = 740000
    rw [u1, k1]
  · rw [c2, c1]
    show sg.cooldownClock.start ≤ P.clickCooldownClock.start + 10000
    rw [u2]
    exact k2

/-- One frame keeps `clicksFire` and ends disarmed. -/
theorem frame_trigger (env : Env) (inp : FrameInput) (s : GameState) (fl : Flow)
    (hk : clicksFire s) (h : frame env inp s = some fl) :
    clicksFire fl.state ∧ fl.state.isCollisionEnabled = false := by
  obtain ⟨sg, hsg, hc⟩ := frame_eq_some env inp s fl h
  obtain ⟨⟨a1, a2⟩, a3⟩ := afterCollision_trigger env inp s sg hk hsg
  rcases hc with ⟨_, hfl⟩ | ⟨_, s', hs', hfl⟩
  · subst hfl
    exact ⟨⟨a1, a2⟩, a3⟩
  · subst hfl
    have ht := updateBirds_trigger env inp.now _ s' hs'
    rw [unlockTiers_trigger] at ht
    simp only [GameState.trigger, Prod.mk.injEq] at ht
    obtain ⟨t1, t2, t3⟩ := ht
    refine ⟨⟨?_, ?_⟩, ?_⟩
    · show s'.shotgun.shootCooldown = 740000
      rw [t2]; exact a1
    · show s'.shotgun.cooldownClock.start ≤ s'.clickCooldownClock.start + 10000
      rw [t2, t1]; exact a2
    · show s'.isCollisionEnabled = false
      rw [t3]; exact a3

/-- Any run of the loop keeps `clicksFire` and stands disarmed. -/
theorem runLoop_trigger (env : Env) (inps : List FrameInput) :
    ∀ (s : GameState) (o : Outcome), clicksFire s → s.isCollisionEnabled = false →
      runLoop env inps s = some o →
      clicksFire o.state ∧ o.state.isCollisionEnabled = false := by
  induction inps with
  | nil =>
    intro s o hk ha h
    rw [runLoop_nil] at h
    split_ifs at h <;> simp only [Option.some.injEq] at h <;> subst h <;> exact ⟨hk, ha⟩
  | cons inp rest ih =>
    intro s o hk ha h
    rw [runLoop_cons] at h
    split_ifs at h
    · simp only [Option.some.injEq] at h
      subst h
      exact ⟨hk, ha⟩
    · cases hf : frame env inp s with
      | none => rw [hf] at h; simp at h
      | some fl =>
        obtain ⟨f1, f2⟩ := frame_trigger env inp s fl hk hf
        rw [hf] at h
        cases fl with
        | ret s' =>
          simp only [Option.some.injEq] at h
          subst h
          exact ⟨f1, f2⟩
        | next s' =>
          simp only at h
          exact ih s' o f1 f2 h

/-- On reaching the loop the pass is disarmed, and `clicksFire` holds when the shotgun was
constructed at most 10 ms after the click clock. -/
theorem init_trigger (env : Env) (a : Entry) (s0 : GameState)
    (h : GameWindow.init env a = some s0) (hgap : a.tPistol ≤ a.t0 + 10000) :
    clicksFire s0 ∧ s0.isCollisionEnabled = false := by
  simp only [GameWindow.init, Option.map_eq_some'] at h
  obtain ⟨sg, hsg, hs⟩ := h
  obtain ⟨_, n2, n3, _, _⟩ := PistolSprite.new_members _ _ _ _ _ _ sg hsg
  subst hs
  refine ⟨⟨?_, ?_⟩, rfl⟩
  · show sg.shootCooldown = 740000
    exact n2
  · show sg.cooldownClock.start ≤ a.t0 + 10000
    rw [n3]
    exact hgap

/-! ### C17: the mode switch -/

/-- C17, the code at the failing input: after the frames `demoThreeHits` both oscillating
targets are active and in wavy mode, and the mode clock was restarted at 4.6 s. In the next
frame, at 5.9 s, the interval of 1 s has elapsed: the turbo bird's mode is flipped and
`modeSwitch` restarted, so the monster's test, which reads the same clock, fails and the
monster's mode is not flipped; nor is it one frame later, at 7 s, when the turbo bird's mode
flips back. -/
theorem monster_mode_not_toggled :
    demoBothActive.state.turboBirdActive = true ∧
    demoBothActive.state.monsterActive = true ∧
    demoBothActive.state.turboMovement.issin = true ∧
    demoBothActive.state.monsterMovement.issin = true ∧
    demoBothActive.state.modeSwitch = ⟨4600000⟩ ∧
    (runLoop demoEnv [⟨[], 5900000, (0, 0)⟩] demoBothActive.state).map
        (fun o => (o.state.turboMovement.issin, o.state.monsterMovement.issin,
          o.state.modeSwitch))
      = some (false, true, ⟨5900000⟩) ∧
    (runLoop demoEnv [⟨[], 5900000, (0, 0)⟩, ⟨[], 7000000, (0, 0)⟩] demoBothActive.state).map
        (fun o => (o.state.turboMovement.issin, o.state.monsterMovement.issin,
          o.state.modeSwitch))
      = some (true, true, ⟨7000000⟩) := by
  decide!

/-! ### C18: clicks and shots -/

/-- C18, the code at the failing input: `GameWindow` is entered with score 0, the click
clock constructed at instant 0 and the shotgun 20 ms later (`demoLateStart`). The first
click of the round comes at 0.755 s: the click cooldown (0.75 s) has elapsed on the click
clock, the shotgun's cooldown (0.74 s) has not elapsed on its own clock. The click arms
`isCollisionEnabled`, its `startShooting` call does not fire (the shotgun is unchanged: no
fire sound, `isShooting` false), and the collision pass of that frame runs all the same:
on leaving the frame one miss is on record although no shot was fired. -/
theorem first_click_arms_pass_without_shot :
    GameWindow.init demoEnv demoLateStart = some demoLateInit ∧
    demoLateInit.clickCooldownClock = ⟨0⟩ ∧ demoLateInit.shotgun.cooldownClock = ⟨20000⟩ ∧
    demoLateInit.clickCooldownClock.getElapsedTime 755000 ≥ clickCooldown ∧
    demoLateInit.shotgun.cooldownClock.getElapsedTime 755000
      < demoLateInit.shotgun.shootCooldown ∧
    (handleEvent 755000 demoLateInit .leftClick).isCollisionEnabled = true ∧
    (handleEvent 755000 demoLateInit .leftClick).shotgun = demoLateInit.shotgun ∧
    demoLateInit.shotgun.isShooting = false ∧ demoLateInit.shotgun.fireSound = 0 ∧
    (GameWindow demoEnv demoLateStart (clicksAt (450, 600) [755000]) true).map
        (fun o => (o.state.missedShots, o.state.score, o.state.shotgun.fireSound,
          o.state.shotgun.isShooting))
      = some (1, 0, 0, false) := by
  decide!

/-- Where the late construction of the shotgun does not reach: in every state the loop of
`GameWindow` reaches, entered with the shotgun constructed at most 10 ms after the click
clock, a left click handled after any events of the frame that finds at least
`clickCooldown` (0.75 s) elapsed on the click clock arms the collision pass and its
`startShooting` call fires; any other click changes nothing. In such a round the collision
pass of a frame is armed only if a shot was fired in that frame. -/
theorem accepted_click_fires (env : Env) (a : Entry) (inps : List FrameInput)
    (s0 : GameState) (o : Outcome) (inp : FrameInput)
    (hinit : GameWindow.init env a = some s0) (hgap : a.tPistol ≤ a.t0 + 10000)
    (hrun : runLoop env inps s0 = some o) :
    (∀ es : List Event,
      ((pollEvents inp.now o.state es).clickCooldownClock.getElapsedTime inp.now
            ≥ clickCooldown →
        (handleEvent inp.now (pollEvents inp.now o.state es) .leftClick).isCollisionEnabled
            = true ∧
        (handleEvent inp.now (pollEvents inp.now o.state es) .leftClick).shotgun.fireSound
            = (pollEvents inp.now o.state es).shotgun.fireSound + 1 ∧
        (handleEvent inp.now (pollEvents inp.now o.state es) .leftClick).shotgun.isShooting
            = true) ∧
      (¬ (pollEvents inp.now o.state es).clickCooldownClock.getElapsedTime inp.now
            ≥ clickCooldown →
        handleEvent inp.now (pollEvents inp.now o.state es) .leftClick
          = pollEvents inp.now o.state es)) ∧
    o.state.isCollisionEnabled = false ∧
    ((pollEvents inp.now o.state inp.events).isCollisionEnabled = true →
      o.state.shotgun.fireSound < (pollEvents inp.now o.state inp.events).shotgun.fireSound) := by
  obtain ⟨i1, i2⟩ := init_trigger env a s0 hinit hgap
  obtain ⟨r1, r2⟩ := runLoop_trigger env inps s0 o i1 i2 hrun
  refine ⟨fun es => ?_, r2, fun harm => ?_⟩
  · obtain ⟨p1, _, _⟩ := pollEvents_clicksFire inp.now es o.state r1
    obtain ⟨h1, h2⟩ := handleEvent_leftClick_fires inp.now _ p1
    exact ⟨fun h => ⟨(h1 h).1, (h1 h).2.1, (h1 h).2.2.1⟩, h2⟩
  · obtain ⟨_, _, p3⟩ := pollEvents_clicksFire inp.now inp.events o.state r1
    rcases p3 harm with h | h
    · rw [r2] at h; exact absurd h (by simp)
    · exact h

/-- From `demoEntry`, where every clock is constructed at instant 0, the click of a frame
at 2 s is accepted and its shot fires. -/
theorem accepted_click_fires_witness :
    demoInit.clickCooldownClock.getElapsedTime 2000000 ≥ clickCooldown ∧
    (handleEvent 2000000 demoInit .leftClick).isCollisionEnabled = true ∧
    (handleEvent 2000000 demoInit .leftClick).shotgun.fireSound
      = demoInit.shotgun.fireSound + 1 :=
  have h := accepted_click_fires demoEnv demoEntry [] demoInit (.running demoInit)
    ⟨[.leftClick], 2000000, (450, 600)⟩ (by decide!) (by decide) (by decide!)
  ⟨by decide!, ((h.1 []).1 (by decide!)).1, ((h.1 []).1 (by decide!)).2.1⟩

/-! ### C19: the order of the tiers -/

/-- C19: in every state the loop of `GameWindow` reaches from its entry (at the loop head
after any frames, or on leaving the loop either way), `monsterActive` implies
`turboBirdActive`. -/
theorem monster_implies_turbo (env : Env) (a : Entry) (inps : List FrameInput)
    (s0 : GameState) (o : Outcome)
    (hinit : GameWindow.init env a = some s0)
    (hrun : runLoop env inps s0 = some o) :
    s0.monsterActive = false ∧
    (o.state.monsterActive = true → o.state.turboBirdActive = true) := by
  have hi := init_round env a s0 hinit
  obtain ⟨_, _, hm, _, _⟩ := init_unlockedOnce env a s0 hinit
  exact ⟨hm, (runLoop_round env a.score inps s0 o hi hrun).2.2.1⟩

/-- C19, witness: after the frames `demoThreeHits` from `demoEntry` the monster is active,
and so is the turbo bird. -/
theorem monster_implies_turbo_witness :
    demoBothActive.state.monsterActive = true ∧ demoBothActive.state.turboBirdActive = true :=
  have h := monster_implies_turbo demoEnv demoEntry demoThreeHits demoInit demoBothActive
    (by decide!) (by decide!)
  ⟨by decide!, h.2 (by decide!)⟩

/-! ### C20: the misses and the final score -/

/-- C20: in every state the loop of `GameWindow` reaches from its entry,
`0 ≤ missedShots ≤ 10`, and the score is the score at entry plus the points of the credited
hits minus 10 for each miss from the fifth on. A round that ends through the game-over
`return` has exactly 10 misses on record, six of them penalised, and its final score is the
score at entry plus the credited hit points minus 60: the credited hit points minus 60 when
the round is entered with score 0, as `main` enters it. -/
theorem missedShots_bounded_and_final_score (env : Env) (a : Entry)
    (inps : List FrameInput) (s0 : GameState) (o : Outcome)
    (hinit : GameWindow.init env a = some s0)
    (hrun : runLoop env inps s0 = some o) :
    0 ≤ o.state.missedShots ∧ o.state.missedShots ≤ 10 ∧
    o.state.score
      = a.score + hitPoints o.state.respawnLog - 10 * penalties o.state.missedShots ∧
    (∀ s, o = .returned s →
      s.missedShots = 10 ∧ penalties s.missedShots = 6 ∧
      s.score = a.score + hitPoints s.respawnLog - 60 ∧
      (a.score = 0 → s.score = hitPoints s.respawnLog - 60)) := by
  have hi := init_round env a s0 hinit
  obtain ⟨r1, r2, _, r4, r5⟩ := runLoop_round env a.score inps s0 o hi hrun
  have hscore : o.state.score
      = a.score + hitPoints o.state.respawnLog - 10 * penalties o.state.missedShots := by
    unfold balance at r1
    omega
  refine ⟨r2, ?_, hscore, ?_⟩
  · cases o with
    | running s => have := r4 s (Or.inl rfl); simp only [Outcome.state]; omega
    | loopExit s => have := r4 s (Or.inr rfl); simp only [Outcome.state]; omega
    | returned s => have := r5 s rfl; simp only [Outcome.state]; omega
  · intro s hs
    subst hs
    have hm := r5 s rfl
    simp only [Outcome.state] at hscore
    have hp : penalties s.missedShots = 6 := by rw [hm]; decide
    rw [hp] at hscore
    exact ⟨hm, hp, by omega, fun h0 => by omega⟩

/-- C20, witness: the round `demoRound`, entered with score 0: two shots credit 14 points
in all, ten misses follow, and the round ends at the game-over `return` with score
`14 - 60 = -46`. -/
theorem missedShots_bounded_and_final_score_witness :
    demoFreshEntry.score = 0 ∧
    (∃ s, demoRoundEnd = .returned s) ∧
    hitPoints demoRoundEnd.state.respawnLog = 14 ∧
    demoRoundEnd.state.missedShots = 10 ∧
    demoRoundEnd.state.score = hitPoints demoRoundEnd.state.respawnLog - 60 :=
  have h := missedShots_bounded_and_final_score demoEnv demoFreshEntry demoRound
    demoFreshInit demoRoundEnd (by decide!) (by decide!)
  ⟨by decide!, ⟨demoRoundEnd.state, by decide!⟩, by decide!,
    (h.2.2.2 demoRoundEnd.state (by decide!)).1,
    (h.2.2.2 demoRoundEnd.state (by decide!)).2.2.2 (by decide!)⟩

/-! ### C21: the high score at the end of the loop and of `main` -/

/-- One frame keeps the high score and the score file, and its `return` leaves the window
closed. -/
theorem frame_highScore (env : Env) (inp : FrameInput) (s : GameState) (fl : Flow)
    (h : frame env inp s = some fl) :
    fl.state.highScore = s.highScore ∧ fl.state.scoreFile = s.scoreFile ∧
    (∀ s', fl = .ret s' → s'.windowOpen = false) := by
  obtain ⟨sg, _, hc⟩ := frame_eq_some env inp s fl h
  obtain ⟨_, _, c3, c4, _⟩ := afterCollision_tiers env inp s sg Tier.turbo
  rcases hc with ⟨_, hfl⟩ | ⟨_, s', hs', hfl⟩
  · subst hfl
    exact ⟨c3, c4, fun s' h => by
      simp only [Flow.ret.injEq] at h
      subst h
      rfl⟩
  · subst hfl
    obtain ⟨hp, _⟩ := updateBirds_progress env inp.now _ s' hs'
    obtain ⟨_, _, _, u4, u5, _⟩ := unlockTiers_spec env (afterCollision env inp s sg)
    simp only [GameState.progress, Progress.mk.injEq] at hp
    obtain ⟨_, p2, p3, _⟩ := hp
    exact ⟨by simp only [Flow.state]; rw [p2, u4, c3],
      by simp only [Flow.state]; rw [p3, u5, c4], fun s'' h => by simp at h⟩

/-- Any run of the loop keeps the high score and the score file; it leaves the loop, either
way, with the window closed, and stands in it with the window open. -/
theorem runLoop_highScore (env : Env) (inps : List FrameInput) :
    ∀ (s : GameState) (o : Outcome), runLoop env inps s = some o →
      o.state.highScore = s.highScore ∧ o.state.scoreFile = s.scoreFile ∧
      (∀ s', o = .loopExit s' ∨ o = .returned s' → s'.windowOpen = false) ∧
      (∀ s', o = .running s' → s'.windowOpen = true) := by
  induction inps with
  | nil =>
    intro s o h
    rw [runLoop_nil] at h
    split_ifs at h with hw <;> simp only [Option.some.injEq] at h <;> subst h
    · refine ⟨rfl, rfl, fun s' h' => ?_, fun s' h' => by simp at h'⟩
      rcases h' with h' | h'
      · simp only [Outcome.loopExit.injEq] at h'
        subst h'
        simpa using hw
      · simp at h'
    · refine ⟨rfl, rfl, fun s' h' => by simp at h', fun s' h' => ?_⟩
      simp only [Outcome.running.injEq] at h'
      subst h'
      simpa using hw
  | cons inp rest ih =>
    intro s o h
    rw [runLoop_cons] at h
    split_ifs at h with hw
    · simp only [Option.some.injEq] at h
      subst h
      refine ⟨rfl, rfl, fun s' h' => ?_, fun s' h' => by simp at h'⟩
      rcases h' with h' | h'
      · simp only [Outcome.loopExit.injEq] at h'
        subst h'
        simpa using hw
      · simp at h'
    · cases hf : frame env inp s with
      | none => rw [hf] at h; simp at h
      | some fl =>
        obtain ⟨f1, f2, f3⟩ := frame_highScore env inp s fl hf
        rw [hf] at h
        cases fl with
        | ret s' =>
          simp only [Option.some.injEq] at h
          subst h
          refine ⟨f1, f2, fun s'' h' => ?_, fun s'' h' => by simp at h'⟩
          rcases h' with h' | h'
          · simp at h'
          · simp only [Outcome.returned.injEq] at h'
            subst h'
            exact f3 s' rfl
        | next s' =>
          simp only at h
          obtain ⟨g1, g2, g3, g4⟩ := ih s' o h
          exact ⟨g1.trans f1, g2.trans f2, g3, g4⟩

/-- With the window closed the loop runs no frame. -/
theorem runLoop_closed (env : Env) (inps : List FrameInput) (s : GameState)
    (h : s.windowOpen = false) : runLoop env inps s = some (.loopExit s) := by
  cases inps with
  | nil => rw [runLoop_nil]; simp [h]
  | cons inp rest => rw [runLoop_cons]; simp [h]

/-- On reaching the loop the window, the score file and the counters are as the call was
given them; the statements before the loop always reach it. -/
theorem init_mainVars (env : Env) (a : Entry) :
    ∃ s0, GameWindow.init env a = some s0 ∧ s0.windowOpen = a.windowOpen ∧
      s0.scoreFile = a.scoreFile ∧ s0.score = a.score ∧ s0.highScore = a.highScore ∧
      s0.streak = a.streak := by
  simp [GameWindow.init, PistolSprite.new, toUnsigned]

/-- The update after the loop sets the high score to the larger of the high score and the
score; it writes the score file only when the high score rises and the file opens, and
nothing else. -/
theorem updateHighScore_spec (fileOpens : Bool) (s : GameState) :
    (updateHighScore fileOpens s).highScore = max s.highScore s.score ∧
    (updateHighScore fileOpens s).score = s.score ∧
    (updateHighScore fileOpens s).streak = s.streak ∧
    (updateHighScore fileOpens s).windowOpen = s.windowOpen ∧
    (updateHighScore fileOpens s).scoreFile
      = (if s.score > s.highScore ∧ fileOpens = true then s.score else s.scoreFile) := by
  unfold updateHighScore
  split_ifs with h1 h2 h3 h4 <;> simp_all <;> omega

/-- A call of `GameWindow` is the statements before the loop, the loop, and the high-score
update when the loop is left through its condition. -/
theorem GameWindow_eq (env : Env) (a : Entry) (inps : List FrameInput) (fileOpens : Bool)
    (o : Outcome) (h : GameWindow env a inps fileOpens = some o) :
    ∃ s0 o', GameWindow.init env a = some s0 ∧ runLoop env inps s0 = some o' ∧
      ((∃ s', o' = .loopExit s' ∧ o = .loopExit (updateHighScore fileOpens s')) ∨
        ((∀ s', o' ≠ .loopExit s') ∧ o = o')) := by
  simp only [GameWindow, Option.bind_eq_some, Option.map_eq_some'] at h
  obtain ⟨s0, h0, o', hr, ho⟩ := h
  refine ⟨s0, o', h0, hr, ?_⟩
  cases o' with
  | running s' => exact Or.inr ⟨fun s'' h' => by simp at h', ho.symm⟩
  | loopExit s' => exact Or.inl ⟨s', rfl, ho.symm⟩
  | returned s' => exact Or.inr ⟨fun s'' h' => by simp at h', ho.symm⟩

/-- A call of `GameWindow` keeps the score file unless it updates the high score; it leaves
through the end of its loop with the high score the larger of the one it was given and the
score, through the game-over `return` with the high score it was given, and either way with
the window closed. -/
theorem GameWindow_highScore (env : Env) (a : Entry) (inps : List FrameInput)
    (fileOpens : Bool) (o : Outcome) (h : GameWindow env a inps fileOpens = some o) :
    (∀ s, o = .loopExit s →
      s.highScore = max a.highScore s.score ∧ s.windowOpen = false) ∧
    (∀ s, o = .returned s → s.highScore = a.highScore ∧ s.windowOpen = false) := by
  obtain ⟨s0, o', h0, hr, ho⟩ := GameWindow_eq env a inps fileOpens o h
  obtain ⟨_, e0, _, _, _, e4, _⟩ := init_mainVars env a
  rw [h0] at e0
  simp only [Option.some.injEq] at e0
  subst e0
  obtain ⟨r1, _, r3, _⟩ := runLoop_highScore env inps s0 o' hr
  rcases ho with ⟨s', ho', ho⟩ | ⟨hne, ho⟩
  · subst ho ho'
    obtain ⟨u1, u2, _, u4, _⟩ := updateHighScore_spec fileOpens s'
    simp only [Outcome.state] at r1
    refine ⟨fun s hs => ?_, fun s hs => by simp at hs⟩
    simp only [Outcome.loopExit.injEq] at hs
    subst hs
    exact ⟨by rw [u1, u2, r1, e4], by rw [u4]; exact r3 s' (Or.inl rfl)⟩
  · subst ho
    refine ⟨fun s hs => ?_, fun s hs => ?_⟩
    · subst hs
      exact absurd rfl (hne s)
    · subst hs
      simp only [Outcome.state] at r1
      exact ⟨by rw [r1, e4], r3 s (Or.inr rfl)⟩

/-- A call of `GameWindow` on a closed window runs no frame and leaves through the end of
its loop. -/
theorem GameWindow_closed (env : Env) (a : Entry) (inps : List FrameInput)
    (fileOpens : Bool) (h : a.windowOpen = false) :
    ∃ s0, GameWindow.init env a = some s0 ∧ runLoop env inps s0 = some (.loopExit s0) ∧
      s0.score = a.score ∧ s0.highScore = a.highScore ∧
      GameWindow env a inps fileOpens = some (.loopExit (updateHighScore fileOpens s0)) := by
  obtain ⟨s0, e0, e1, _, e3, e4, _⟩ := init_mainVars env a
  have hr := runLoop_closed env inps s0 (e1.trans h)
  refine ⟨s0, e0, hr, e3, e4, ?_⟩
  simp only [GameWindow, e0, Option.some_bind, hr, Option.map_some']

/-- The last call of `main`, made on a closed window, ends `main` with the score it was
given and the high score the larger of the high score it was given and the score. -/
theorem lastCall_closed (env : Env) (last : Call) (v : MainVars) (h : v.windowOpen = false) :
    ∃ s, lastCall env last v = some (.finished s) ∧ s.score = v.score ∧
      s.highScore = max v.highScore v.score ∧ s.windowOpen = false := by
  obtain ⟨s0, _, _, e3, e4, hg⟩ := GameWindow_closed env
    { last.entry with windowOpen := v.windowOpen, scoreFile := v.scoreFile, score := v.score,
                      highScore := v.highScore, streak := v.streak }
    last.frames last.fileOpens h
  obtain ⟨g1, g2⟩ := GameWindow_highScore env _ _ _ _ hg
  obtain ⟨u1, u2, _⟩ := updateHighScore_spec last.fileOpens s0
  refine ⟨updateHighScore last.fileOpens s0, ?_, ?_, ?_, (g1 _ rfl).2⟩
  · simp only [lastCall, Call.run, hg, Option.map_some']
  · rw [u2, e3]
  · rw [u1, e3, e4]

/-- When the window is closed in the menus, `main` ends with score 0 and the high score the
larger of the loaded value and 0. -/
theorem main_quit (env : Env) (file : Option Int) (events : List MenuEvent)
    (round last : Call) (h : menus .mainMenu events = .quit) :
    ∃ s, main env file events round last = some (.finished s) ∧ s.score = 0 ∧
      s.highScore = max (loadHighScore file) 0 := by
  obtain ⟨s, h1, h2, h3, _⟩ := lastCall_closed env last
    { windowOpen := false, scoreFile := loadHighScore file, score := 0,
      highScore := loadHighScore file, streak := 0 } rfl
  exact ⟨s, by simp only [main, h]; exact h1, h2, h3⟩

/-- When the play button is clicked and the round is left, either way, `main` ends with the
score of the round and the high score the larger of the loaded value and that score. -/
theorem main_play (env : Env) (file : Option Int) (events : List MenuEvent)
    (round last : Call) (o : Outcome) (h : menus .mainMenu events = .play)
    (hr : round.run env
      { windowOpen := true, scoreFile := loadHighScore file, score := 0,
        highScore := loadHighScore file, streak := 0 } = some o)
    (hleft : ∀ s', o ≠ .running s') :
    ∃ s, main env file events round last = some (.finished s) ∧ s.score = o.state.score ∧
      s.highScore = max (loadHighScore file) o.state.score := by
  obtain ⟨g1, g2⟩ := GameWindow_highScore env _ _ _ o hr
  cases o with
  | running s1 => exact absurd rfl (hleft s1)
  | loopExit s1 =>
    obtain ⟨a1, a2⟩ := g1 s1 rfl
    obtain ⟨s, h1, h2, h3, _⟩ := lastCall_closed env last s1.mainVars a2
    refine ⟨s, by simp only [main, h, hr, Option.some_bind]; exact h1, h2, ?_⟩
    rw [h3]
    simp only [GameState.mainVars, Outcome.state]
    rw [a1]
    simp only [max_assoc, max_self] at *
  | returned s1 =>
    obtain ⟨a1, a2⟩ := g2 s1 rfl
    obtain ⟨s, h1, h2, h3, _⟩ := lastCall_closed env last s1.mainVars a2
    refine ⟨s, by simp only [main, h, hr, Option.some_bind]; exact h1, h2, ?_⟩
    rw [h3]
    simp only [GameState.mainVars, Outcome.state]
    rw [a1]

/-- Every run of `main` that reaches its end has the high score the larger of the loaded
value and the final score. -/
theorem main_finished (env : Env) (file : Option Int) (events : List MenuEvent)
    (round last : Call) (s : GameState)
    (h : main env file events round last = some (.finished s)) :
    s.highScore = max (loadHighScore file) s.score := by
  cases hm : menus .mainMenu events with
  | polling scr => simp [main, hm] at h
  | quit =>
    obtain ⟨s1, h1, h2, h3⟩ := main_quit env file events round last hm
    rw [h1] at h
    simp only [Option.some.injEq, MainOutcome.finished.injEq] at h
    subst h
    rw [h3, h2]
  | play =>
    cases hr : round.run env
        { windowOpen := true, scoreFile := loadHighScore file, score := 0,
          highScore := loadHighScore file, streak := 0 } with
    | none => simp [main, hm, hr] at h
    | some o =>
      by_cases hrun : ∃ s', o = .running s'
      · obtain ⟨s', hs'⟩ := hrun
        subst hs'
        simp [main, hm, hr] at h
      · obtain ⟨s1, h1, h2, h3⟩ := main_play env file events round last o hm hr
          (fun s' hs' => hrun ⟨s', hs'⟩)
        rw [h1] at h
        simp only [Option.some.injEq, MainOutcome.finished.injEq] at h
        subst h
        rw [h3, h2]

/-- C21: every call of `GameWindow` that leaves through the end of its frame loop finishes
with the high score the larger of the high score it was given, which the loop never writes,
and the score on leaving the loop, with the score as the loop left it and the window closed.
A call on a window already closed runs no frame, always leaves this way, and finishes with
the score it was given. Hence every run of `main` that reaches its end, through the menus,
at most one round and the call after `mainMenu`, ends with the high score the larger of the
loaded value and the final score; `main` reaches its end whenever the window is closed in
the menus (final score 0) and whenever the round is left, through the end of its loop or
through the game-over `return` (final score the score of the round). -/
theorem high_score_is_max_at_loop_end (env : Env) :
    (∀ (a : Entry) (inps : List FrameInput) (fileOpens : Bool) (s : GameState),
      GameWindow env a inps fileOpens = some (.loopExit s) →
      ∃ s0 s', GameWindow.init env a = some s0 ∧
        runLoop env inps s0 = some (.loopExit s') ∧ s'.highScore = a.highScore ∧
        s = updateHighScore fileOpens s' ∧
        s.highScore = max a.highScore s'.score ∧ s.score = s'.score ∧
        s.windowOpen = false) ∧
    (∀ (a : Entry) (inps : List FrameInput) (fileOpens : Bool), a.windowOpen = false →
      ∃ s0 s, GameWindow.init env a = some s0 ∧ runLoop env inps s0 = some (.loopExit s0) ∧
        GameWindow env a inps fileOpens = some (.loopExit s) ∧
        s.highScore = max a.highScore a.score ∧ s.score = a.score) ∧
    (∀ (file : Option Int) (events : List MenuEvent) (round last : Call) (s : GameState),
      main env file events round last = some (.finished s) →
      s.highScore = max (loadHighScore file) s.score) ∧
    (∀ (file : Option Int) (events : List MenuEvent) (round last : Call),
      menus .mainMenu events = .quit →
      ∃ s, main env file events round last = some (.finished s) ∧ s.score = 0) ∧
    (∀ (file : Option Int) (events : List MenuEvent) (round last : Call) (o : Outcome),
      menus .mainMenu events = .play →
      round.run env
        { windowOpen := true, scoreFile := loadHighScore file, score := 0,
          highScore := loadHighScore file, streak := 0 } = some o →
      (∀ s', o ≠ .running s') →
      ∃ s, main env file events round last = some (.finished s) ∧
        s.score = o.state.score) := by
  refine ⟨?_, ?_, ?_, ?_, ?_⟩
  · intro a inps fileOpens s h
    obtain ⟨s0, o', h0, hr, ho⟩ := GameWindow_eq env a inps fileOpens _ h
    obtain ⟨g1, _⟩ := GameWindow_highScore env a inps fileOpens _ h
    obtain ⟨_, e0, _, _, _, e4, _⟩ := init_mainVars env a
    rw [h0] at e0
    simp only [Option.some.injEq] at e0
    subst e0
    obtain ⟨r1, _⟩ := runLoop_highScore env inps s0 o' hr
    rcases ho with ⟨s', ho', ho⟩ | ⟨hne, ho⟩
    · subst ho'
      simp only [Option.some.injEq, Outcome.loopExit.injEq] at ho
      simp only [Outcome.state] at r1
      obtain ⟨u1, u2, _⟩ := updateHighScore_spec fileOpens s'
      refine ⟨s0, s', h0, hr, r1.trans e4, ho, ?_, ?_, (g1 s rfl).2⟩
      · rw [ho, u1, r1, e4]
      · rw [ho, u2]
    · exact absurd ho.symm (hne s)
  · intro a inps fileOpens h
    obtain ⟨s0, h0, hr, e3, e4, hg⟩ := GameWindow_closed env a inps fileOpens h
    obtain ⟨u1, u2, _⟩ := updateHighScore_spec fileOpens s0
    exact ⟨s0, _, h0, hr, hg, by rw [u1, e3, e4], by rw [u2, e3]⟩
  · intro file events round last s h
    exact main_finished env file events round last s h
  · intro file events round last h
    obtain ⟨s, h1, h2, _⟩ := main_quit env file events round last h
    exact ⟨s, h1, h2⟩
  · intro file events round last o h hr hleft
    obtain ⟨s, h1, h2, _⟩ := main_play env file events round last o h hr hleft
    exact ⟨s, h1, h2⟩

/-- C21, witness: with 5 in the score file, the guide, back and play buttons are clicked.
A round of three shots left by Escape ends `main` with score 27 and high score 27; a round
of twelve shots that ends at the tenth miss with score 6 leaves through the game-over
`return` with the high score still 5, and the call after `mainMenu`, on the closed window,
ends `main` with high score 6. -/
theorem high_score_is_max_at_loop_end_witness :
    main demoEnv (some 5) demoMenuEvents demoQuitRound demoLastCall
      = some (.finished demoMainQuit) ∧
    demoMainQuit.score = 27 ∧
    demoMainQuit.highScore = max (loadHighScore (some 5)) demoMainQuit.score ∧
    main demoEnv (some 5) demoMenuEvents demoLostRound demoLastCall
      = some (.finished demoMainLost) ∧
    demoMainLost.score = 6 ∧
    demoMainLost.highScore = max (loadHighScore (some 5)) demoMainLost.score :=
  have h := high_score_is_max_at_loop_end demoEnv
  ⟨by decide!, by decide!,
    h.2.2.1 (some 5) demoMenuEvents demoQuitRound demoLastCall demoMainQuit (by decide!),
    by decide!, by decide!,
    h.2.2.1 (some 5) demoMenuEvents demoLostRound demoLastCall demoMainLost (by decide!)⟩

end OopsIMissed
